import Mathlib

set_option maxRecDepth 1000000
set_option linter.unusedVariables false

/-!
Shallow embedding of the Lode Runner simulation core
(src/lode_runner/lode_runner/main.cpp).

World coordinates and timers, `float` in the source, are modelled as exact
rationals (ℚ); grid indices (`int`) are modelled as ℤ.  The `std::map` hole
registry is modelled as an association list kept sorted by key (insertion
inserts before the first strictly larger key, as `std::map` ordering does);
lookups return the first matching entry.  `rand()` is abstracted as a boolean
oracle passed in by the caller.  OpenGL / GLUT rendering and raw key events
are outside the model, as is the cosmetic `gameTime` accumulator.
-/

namespace LodeRunner

/-- Tile kinds, from `enum TileType` in main.cpp. -/
inductive TileType where
  | EMPTY
  | BRICK
  | LADDER
  | ROPE
  | SOLID_BRICK
  | EXIT_LADDER
deriving DecidableEq

open TileType

-- Game constants (main.cpp, top of file).
def WINDOW_WIDTH : ℚ := 800
def WINDOW_HEIGHT : ℚ := 600
def GRID_WIDTH : Int := 20
def GRID_HEIGHT : Int := 15
def TILE_SIZE : ℚ := 40
def PLAYER_SPEED : ℚ := 150
def ENEMY_SPEED : ℚ := 120
def GRAVITY : ℚ := 500
def JUMP_FORCE : ℚ := 10
def CLIMB_SPEED : ℚ := 150
def ROPE_SPEED : ℚ := 150
def INITIAL_LIVES : Int := 3
def DIG_REFILL_TIME : ℚ := 7
def ENEMY_RESPAWN_DELAY : ℚ := 3

/-- Collision-box width `TILE_SIZE * 0.8f` used throughout updatePhysics. -/
def entityWidth : ℚ := TILE_SIZE * (8/10)

/-- Collision-box height `TILE_SIZE * 0.95f` used throughout updatePhysics. -/
def entityHeight : ℚ := TILE_SIZE * (95/100)

/-- `struct Entity` from main.cpp. -/
structure Entity where
  x : ℚ
  y : ℚ
  vx : ℚ
  vy : ℚ
  isJumping : Bool
  isClimbing : Bool
  isOnRope : Bool
  isFalling : Bool
  faceRight : Bool
  isTrapped : Bool
  trappedTimer : ℚ
  isAlive : Bool
  respawnTimer : ℚ
  startGridX : Int
  startGridY : Int
deriving DecidableEq

/-- `struct DugHole` from main.cpp. -/
structure DugHole where
  gridX : Int
  gridY : Int
  timer : ℚ
  originalType : TileType
deriving DecidableEq

/-- The tile grid `level[GRID_HEIGHT][GRID_WIDTH]`, indexed row (y) first. -/
abbrev Level : Type := Int → Int → TileType

/-- The registry `std::map<std::pair<int,int>, DugHole> dugHoles`. -/
abbrev HoleMap : Type := List ((Int × Int) × DugHole)

/-- Pointwise update of one grid cell (`level[y][x] = t`). -/
def updLevel (lvl : Level) (y x : Int) (t : TileType) : Level :=
  fun y' x' => if y' = y ∧ x' = x then t else lvl y' x'

/-- `dugHoles.find(key)`: first entry with the given key, if any. -/
def findHole : HoleMap → (Int × Int) → Option DugHole
  | [], _ => none
  | (k, h) :: rest, key => if k = key then some h else findHole rest key

/-- Strict key order of the `std::map` (lexicographic on the int pair). -/
def keyLt (a b : Int × Int) : Prop :=
  a.1 < b.1 ∨ (a.1 = b.1 ∧ a.2 < b.2)

instance (a b : Int × Int) : Decidable (keyLt a b) := by
  unfold keyLt; infer_instance

/-- `dugHoles[key] = hole` for an absent key: sorted-position insertion. -/
def insertHole : HoleMap → (Int × Int) → DugHole → HoleMap
  | [], k, h => [(k, h)]
  | (k0, h0) :: rest, k, h =>
    if keyLt k k0 then (k, h) :: (k0, h0) :: rest
    else (k0, h0) :: insertHole rest k h

/-- `getGridX`: `floor(x / TILE_SIZE)`. -/
def getGridX (x : ℚ) : Int := (x / TILE_SIZE).floor

/-- `getGridY`: `floor(y / TILE_SIZE)`. -/
def getGridY (y : ℚ) : Int := (y / TILE_SIZE).floor

/-- `getTileAt(x, y)`: bounds check resolving to SOLID_BRICK, then the
hole-registry override resolving to EMPTY, then the stored grid tile. -/
def getTileAt (lvl : Level) (holes : HoleMap) (x y : ℚ) : TileType :=
  let gridX := getGridX x
  let gridY := getGridY y
  if gridX < 0 ∨ gridX ≥ GRID_WIDTH ∨ gridY < 0 ∨ gridY ≥ GRID_HEIGHT then
    SOLID_BRICK
  else
    match findHole holes (gridX, gridY) with
    | some _ => EMPTY
    | none => lvl gridY gridX

/-- A tile that blocks movement (`== BRICK || == SOLID_BRICK` in the source). -/
def isSolid (t : TileType) : Bool := t == BRICK || t == SOLID_BRICK

/-- `isColliding`: axis-aligned bounding-box overlap with strict inequalities. -/
def isColliding (x1 y1 w1 h1 x2 y2 w2 h2 : ℚ) : Bool :=
  x1 < x2 + w2 && x1 + w1 > x2 && y1 < y2 + h2 && y1 + h1 > y2

/-- `canMoveTo`: samples the box's 3×3 grid of corner/midpoint/center points;
false iff some sample is BRICK or SOLID_BRICK.  The `onRope`/`isClimbing`
parameters are accepted but, as in the source, never influence the result. -/
def canMoveTo (lvl : Level) (holes : HoleMap) (x y width height : ℚ)
    (onRope isClimbing : Bool) : Bool :=
  [x, x + width / 2, x + width].all fun checkX =>
    [y, y + height / 2, y + height].all fun checkY =>
      !(isSolid (getTileAt lvl holes checkX checkY))

/-- `isOnGround`: solid tile one unit below the feet at three sample points,
or feet within tolerance of a trapped enemy's head with horizontal overlap.
`others` is the enemy array minus the entity itself (the source skips the
entity by address comparison). -/
def isOnGround (lvl : Level) (holes : HoleMap) (others : List Entity)
    (e : Entity) : Bool :=
  let checkY := e.y - 1
  let onSolidTile :=
    isSolid (getTileAt lvl holes (e.x + entityWidth * (1/10)) checkY) ||
    isSolid (getTileAt lvl holes (e.x + entityWidth * (5/10)) checkY) ||
    isSolid (getTileAt lvl holes (e.x + entityWidth * (9/10)) checkY)
  onSolidTile ||
    others.any fun en =>
      en.isTrapped &&
      |e.y - (en.y + TILE_SIZE * (9/10))| < 5 &&
      e.x + entityWidth > en.x &&
      e.x < en.x + TILE_SIZE * (8/10)

/-- `isOnLadder`: LADDER or EXIT_LADDER at the center column, at three
heights. -/
def isOnLadder (lvl : Level) (holes : HoleMap) (e : Entity) : Bool :=
  let checkX := e.x + entityWidth / 2
  let tileBottom := getTileAt lvl holes checkX (e.y + entityHeight * (1/10))
  let tileMiddle := getTileAt lvl holes checkX (e.y + entityHeight * (5/10))
  let tileTop := getTileAt lvl holes checkX (e.y + entityHeight * (9/10))
  tileBottom == LADDER || tileBottom == EXIT_LADDER ||
  tileMiddle == LADDER || tileMiddle == EXIT_LADDER ||
  tileTop == LADDER || tileTop == EXIT_LADDER

/-- `checkOnRope`: ROPE at the box center, with the entity's base within
`TILE_SIZE * 0.3` of the rope row's base. -/
def checkOnRope (lvl : Level) (holes : HoleMap) (e : Entity) : Bool :=
  let checkX := e.x + entityWidth / 2
  let checkY := e.y + entityHeight * (5/10)
  if getTileAt lvl holes checkX checkY == ROPE then
    let ropeGridY := getGridY checkY
    decide (|e.y - (ropeGridY : ℚ) * TILE_SIZE| < TILE_SIZE * (3/10))
  else
    false

/-- `killEnemy`: mark a live enemy dead and start its respawn timer. -/
def killEnemy (enemy : Entity) : Entity :=
  if !enemy.isAlive then enemy
  else
    { enemy with
      isAlive := false
      isTrapped := false
      respawnTimer := ENEMY_RESPAWN_DELAY
      vx := 0
      vy := 0 }

/-- Trapped branch of `updatePhysics` (the early-return block): decrement the
trapped timer, force velocity to zero, and on timer expiry either release the
entity (hole gone: enemies die, the player is boosted upward and set falling)
or clamp the timer to 0.01. -/
def trappedStep (holes : HoleMap) (isPlayer : Bool) (dt : ℚ) (e0 : Entity) :
    Entity :=
  let e := { e0 with trappedTimer := e0.trappedTimer - dt, vx := 0, vy := 0 }
  let gridX := getGridX (e.x + TILE_SIZE * (4/10))
  let gridY := getGridY e.y
  if e.trappedTimer ≤ 0 then
    match findHole holes (gridX, gridY) with
    | none =>
      if !isPlayer then killEnemy e
      else { e with isTrapped := false, y := e.y + 5, isFalling := true }
    | some _ => { e with trappedTimer := 1/100 }
  else e

/-- Gravity application: only when neither climbing nor on a rope. -/
def gravityStep (dt : ℚ) (e : Entity) : Entity :=
  if !e.isClimbing && !e.isOnRope then { e with vy := e.vy - GRAVITY * dt }
  else e

/-- The trapped-enemy head scan in the descending vertical-collision branch:
first trapped enemy whose head level the falling box crosses while
horizontally overlapping, reported as its head height. -/
def landOnEnemyScan (others : List Entity) (oldY newX newY : ℚ) : Option ℚ :=
  match others with
  | [] => none
  | en :: rest =>
    let enemyHeadY := en.y + TILE_SIZE * (9/10)
    if en.isTrapped ∧ newY ≤ enemyHeadY ∧ oldY ≥ enemyHeadY ∧
        newX + entityWidth > en.x ∧ newX < en.x + TILE_SIZE * (8/10) then
      some enemyHeadY
    else landOnEnemyScan rest oldY newX newY

/-- Vertical collision resolution of `updatePhysics` (run when vy ≠ 0):
samples the leading edge at two x offsets, blocks on BRICK/SOLID_BRICK
(descending also on a trapped enemy's head, though the snap then still uses
the tile row, as in the source), and otherwise marks a descending
non-climbing entity as falling.  Returns the resolved newY and entity. -/
def verticalResolve (lvl : Level) (holes : HoleMap) (others : List Entity)
    (isPlayer : Bool) (oldY newX newY : ℚ) (e : Entity) : ℚ × Entity :=
  if e.vy ≠ 0 then
    let checkXLeft := newX + TILE_SIZE * (1/10)
    let checkXRight := (newX + entityWidth) - TILE_SIZE * (1/10)
    let checkY := if e.vy < 0 then newY else newY + entityHeight
    let tileLeft := getTileAt lvl holes checkXLeft checkY
    let tileRight := getTileAt lvl holes checkXRight checkY
    if e.vy < 0 then
      -- moving down: tile collision, then trapped-enemy head scan
      let tileHit := isSolid tileLeft || isSolid tileRight
      let headHit := landOnEnemyScan others oldY newX newY
      let collision := tileHit || headHit.isSome
      let newY1 := match headHit with
        | some enemyHeadY => enemyHeadY
        | none => newY
      if collision then
        let gridY := getGridY checkY
        (((gridY : ℚ) + 1) * TILE_SIZE,
          { e with
            vy := 0
            isFalling := false
            isJumping := if isPlayer then false else e.isJumping })
      else
        (newY1,
          if ¬e.isClimbing ∧ ¬e.isOnRope then { e with isFalling := true }
          else e)
    else
      -- moving up
      if isSolid tileLeft || isSolid tileRight then
        let gridY := getGridY checkY
        ((gridY : ℚ) * TILE_SIZE - entityHeight, { e with vy := 0 })
      else (newY, e)
  else (newY, e)

/-- Horizontal collision resolution of `updatePhysics` (run when vx ≠ 0):
samples the leading edge at three y offsets; BRICK/SOLID_BRICK blocks unless
the entity is climbing or on a rope and one of the three samples is a LADDER
or ROPE.  Returns the resolved newX and entity. -/
def horizontalResolve (lvl : Level) (holes : HoleMap) (newY : ℚ) (newX : ℚ)
    (e : Entity) : ℚ × Entity :=
  if e.vx ≠ 0 then
    let checkYBottom := newY + TILE_SIZE * (1/10)
    let checkYMiddle := newY + entityHeight * (5/10)
    let checkYTop := newY + entityHeight * (9/10)
    let checkX := if e.vx < 0 then newX else newX + entityWidth
    let tileBottom := getTileAt lvl holes checkX checkYBottom
    let tileMiddle := getTileAt lvl holes checkX checkYMiddle
    let tileTop := getTileAt lvl holes checkX checkYTop
    if isSolid tileBottom || isSolid tileMiddle || isSolid tileTop then
      let onValidTraversal := e.isClimbing || e.isOnRope
      if !onValidTraversal ||
          (tileBottom != LADDER && tileBottom != ROPE &&
           tileMiddle != LADDER && tileMiddle != ROPE &&
           tileTop != LADDER && tileTop != ROPE) then
        let gridX := getGridX checkX
        if e.vx < 0 then (((gridX : ℚ) + 1) * TILE_SIZE, { e with vx := 0 })
        else ((gridX : ℚ) * TILE_SIZE - entityWidth, { e with vx := 0 })
      else (newX, e)
    else (newX, e)
  else (newX, e)

/-- Gravity, tentative advance, and axis-separated collision resolution of
`updatePhysics`, ending with the write-back of the resolved position. -/
def moveStep (lvl : Level) (holes : HoleMap) (others : List Entity)
    (isPlayer : Bool) (dt : ℚ) (e0 : Entity) : Entity :=
  let e := gravityStep dt e0
  let oldY := e.y
  let newX := e.x + e.vx * dt
  let newY := e.y + e.vy * dt
  let vr := verticalResolve lvl holes others isPlayer oldY newX newY e
  let hr := horizontalResolve lvl holes vr.1 newX vr.2
  { hr.2 with x := hr.1, y := vr.1 }

/-- Window-boundary handling of `updatePhysics`: clamp x to the window,
and on falling below `-TILE_SIZE` reset y, decrementing player lives
(entering game over at zero, else respawning the player at its start) or
killing the enemy.  Returns the entity with updated lives and game-over. -/
def boundaryStep (isPlayer : Bool) (lives : Int) (gameOver : Bool)
    (e0 : Entity) : Entity × Int × Bool :=
  let e := if e0.x < 0 then { e0 with x := 0 } else e0
  let e :=
    if e.x + entityWidth > WINDOW_WIDTH then
      { e with x := WINDOW_WIDTH - entityWidth }
    else e
  if e.y < -TILE_SIZE then
    let e := { e with y := 0, vy := 0 }
    if isPlayer then
      let lives' := lives - 1
      if lives' ≤ 0 then (e, lives', true)
      else
        ({ e with
            x := (e.startGridX : ℚ) * TILE_SIZE + TILE_SIZE * (1/10)
            y := (e.startGridY : ℚ) * TILE_SIZE
            vx := 0
            vy := 0
            isFalling := false }, lives', gameOver)
    else (killEnemy e, lives, gameOver)
  else (e, lives, gameOver)

/-- Final block of `updatePhysics`: clear a grounded stationary falling state,
then capture the entity if its feet cell holds an active hole and it is
falling — centering it in the cell, aligning feet to the cell bottom,
zeroing velocity, clearing falling/climbing, and seeding the trapped timer
from the hole's remaining time minus 0.1 (clamped to 0.01 if negative). -/
def checkHoleFall (lvl : Level) (holes : HoleMap) (others : List Entity)
    (isPlayer : Bool) (e0 : Entity) : Entity :=
  let gridX := getGridX (e0.x + entityWidth / 2)
  let gridYFeet := getGridY (e0.y + 1)
  let e :=
    if e0.isFalling ∧ e0.vy = 0 ∧ isOnGround lvl holes others e0 then
      { e0 with
        isFalling := false
        isJumping := if isPlayer then false else e0.isJumping }
    else e0
  if 0 ≤ gridX ∧ gridX < GRID_WIDTH ∧ 0 ≤ gridYFeet ∧ gridYFeet < GRID_HEIGHT
  then
    match findHole holes (gridX, gridYFeet) with
    | some h =>
      if e.isFalling ∧ ¬e.isTrapped then
        let seeded := h.timer - 1/10
        { e with
          isTrapped := true
          trappedTimer := if seeded < 0 then 1/100 else seeded
          x := (gridX : ℚ) * TILE_SIZE + (TILE_SIZE - entityWidth) / 2
          y := (gridYFeet : ℚ) * TILE_SIZE
          vx := 0
          vy := 0
          isFalling := false
          isClimbing := false }
      else e
    | none => e
  else e

/-- `updatePhysics(entity, dt)`: trapped early-return, else gravity with
axis-separated collision resolution, boundary handling (which may change
lives / game-over for the player) and hole-fall capture.  Returns the
updated entity together with the updated lives and game-over values. -/
def updatePhysics (lvl : Level) (holes : HoleMap) (others : List Entity)
    (isPlayer : Bool) (lives : Int) (gameOver : Bool) (dt : ℚ) (e : Entity) :
    Entity × Int × Bool :=
  if e.isTrapped then (trappedStep holes isPlayer dt e, lives, gameOver)
  else
    let e1 := moveStep lvl holes others isPlayer dt e
    let br := boundaryStep isPlayer lives gameOver e1
    (checkHoleFall lvl holes others isPlayer br.1, br.2.1, br.2.2)

/-- The registry entry created by a successful `digHole(gridX, gridY)`:
timer `DIG_REFILL_TIME` (7 seconds), original kind BRICK. -/
def newHoleAt (gx gy : Int) : DugHole :=
  { gridX := gx, gridY := gy, timer := DIG_REFILL_TIME,
    originalType := BRICK }

/-- `digHole(gridX, gridY)`: rejected when out of bounds, when the stored
tile is not BRICK, or when an entry already exists; otherwise inserts a
fresh entry with timer `DIG_REFILL_TIME` and original kind BRICK.  The level
grid itself is never written (`getTileAt` supplies the EMPTY appearance). -/
def digHole (lvl : Level) (holes : HoleMap) (gridX gridY : Int) : HoleMap :=
  if gridX < 0 ∨ gridX ≥ GRID_WIDTH ∨ gridY < 0 ∨ gridY ≥ GRID_HEIGHT then
    holes
  else if lvl gridY gridX = BRICK then
    if findHole holes (gridX, gridY) = none then
      insertHole holes (gridX, gridY) (newHoleAt gridX gridY)
    else holes
  else holes

/-- The per-tick key-held table consumed by `handleInput` (raw `keyStates`
and `specialKeyStates` entries actually read by the game logic). -/
structure Keys where
  kA : Bool
  kD : Bool
  kW : Bool
  kS : Bool
  kSpace : Bool
  kQ : Bool
  kE : Bool
  kLeft : Bool
  kRight : Bool
  kUp : Bool
  kDown : Bool
deriving DecidableEq

/-- Horizontal-movement section of `handleInput`: rope speed on ropes,
player speed otherwise (unless actively climbing), facing update, and the
climb-cancel when moving horizontally off a ladder. -/
def inputHorizontal (keys : Keys) (p0 : Entity) : Entity :=
  let p :=
    if keys.kA || keys.kLeft then
      let p :=
        if p0.isOnRope then { p0 with vx := -ROPE_SPEED }
        else if !p0.isClimbing then { p0 with vx := -PLAYER_SPEED }
        else p0
      let p := { p with faceRight := false }
      if !p.isOnRope then { p with isClimbing := false } else p
    else p0
  if keys.kD || keys.kRight then
    let p2 :=
      if p.isOnRope then { p with vx := ROPE_SPEED }
      else if !p.isClimbing then { p with vx := PLAYER_SPEED }
      else p
    let p2 := { p2 with faceRight := true }
    if !p2.isOnRope then { p2 with isClimbing := false } else p2
  else p

/-- Ladder section of `handleInput`: on a ladder, falling and rope flags
are cleared and W/S climb; otherwise climbing is cleared. -/
def inputLadder (onLadder : Bool) (keys : Keys) (p : Entity) : Entity :=
  if onLadder then
    let p := { p with isFalling := false, isOnRope := false }
    if keys.kW || keys.kUp then
      { p with vy := CLIMB_SPEED, isClimbing := true }
    else if keys.kS || keys.kDown then
      { p with vy := -CLIMB_SPEED, isClimbing := true }
    else
      -- both sub-branches of the source set isClimbing = false
      { p with vy := 0, isClimbing := false }
  else { p with isClimbing := false }

/-- Rope-stop section of `handleInput`: when on a rope whose grid cell
really stores ROPE (raw grid read, no hole override), vertical velocity and
the climbing/falling flags are cleared. -/
def inputRopeStop (lvl : Level) (p : Entity) : Entity :=
  if p.isOnRope then
    let playerGridY := getGridY (p.y + TILE_SIZE * (1/10))
    let playerGridX := getGridX (p.x + TILE_SIZE * (4/10))
    if lvl playerGridY playerGridX = ROPE then
      { p with vy := 0, isClimbing := false, isFalling := false }
    else p
  else p

/-- Jump section of `handleInput` (consumes the space key). -/
def inputJump (lvl : Level) (holes : HoleMap) (enemies : List Entity)
    (keys : Keys) (p : Entity) : Entity × Keys :=
  let groundCheck := isOnGround lvl holes enemies p
  if keys.kSpace && groundCheck && !p.isClimbing && !p.isOnRope &&
      !p.isFalling then
    ({ p with vy := JUMP_FORCE, isJumping := true, isFalling := false },
      { keys with kSpace := false })
  else (p, keys)

/-- The movement section of `handleInput` (run when the guard passes):
horizontal movement (rope speed on ropes), ladder climbing, the rope
vertical stop and the one-shot jump, which consumes the space key. -/
def handleInputMove (lvl : Level) (holes : HoleMap) (enemies : List Entity)
    (keys : Keys) (p0 : Entity) : Entity × Keys :=
  let p := { p0 with vx := 0 }
  let onLadder := isOnLadder lvl holes p
  let p := { p with isOnRope := checkOnRope lvl holes p }
  let p := inputHorizontal keys p
  let p := inputLadder onLadder keys p
  let p := inputRopeStop lvl p
  inputJump lvl holes enemies keys p

/-- `handleInput(deltaTime)`: the early-out guard, the movement section,
then the one-shot dig triggers (down-left / down-right), which consume
their key.  Returns the updated player, key table and hole registry. -/
def handleInput (lvl : Level) (holes : HoleMap) (enemies : List Entity)
    (gameOver gameWon : Bool) (keys : Keys) (p0 : Entity) :
    Entity × Keys × HoleMap :=
  if gameOver || gameWon || p0.isTrapped || !p0.isAlive then (p0, keys, holes)
  else
    let pk := handleInputMove lvl holes enemies keys p0
    let p := pk.1
    let keys := pk.2
    -- digging (down-left / down-right), consuming the dig key
    let playerGridX := getGridX (p.x + TILE_SIZE * (4/10))
    let playerGridY := getGridY p.y
    let tileBelow := getTileAt lvl holes (p.x + TILE_SIZE * (4/10)) (p.y - 1)
    let canStand := tileBelow == BRICK || tileBelow == SOLID_BRICK ||
      tileBelow == LADDER || tileBelow == ROPE ||
      isOnLadder lvl holes p || checkOnRope lvl holes p
    if canStand && !p.isFalling && !p.isClimbing then
      let targetY := playerGridY - 1
      if keys.kQ then
        let targetX := playerGridX - 1
        let holes' :=
          if targetX ≥ 0 ∧ targetY ≥ 0 then
            if lvl targetY targetX = BRICK ∧
                findHole holes (targetX, targetY) = none then
              digHole lvl holes targetX targetY
            else holes
          else holes
        (p, { keys with kQ := false }, holes')
      else if keys.kE then
        let targetX := playerGridX + 1
        let holes' :=
          if targetX < GRID_WIDTH ∧ targetY ≥ 0 then
            if lvl targetY targetX = BRICK ∧
                findHole holes (targetX, targetY) = none then
              digHole lvl holes targetX targetY
            else holes
          else holes
        (p, { keys with kE := false }, holes')
      else (p, keys, holes)
    else (p, keys, holes)

/-- The non-registry state read and written by `updateDigging`. -/
structure DigState where
  level : Level
  player : Entity
  enemies : List Entity

/-- The player release on hole refill: freed, nudged 5 units upward, and set
falling. -/
def freePlayer (p : Entity) : Entity :=
  { p with isTrapped := false, y := p.y + 5, isFalling := true }

/-- Refill consequences for one expired hole entry: restore the stored
original tile kind, free a trapped player whose grid cell matches, and kill
live trapped enemies whose grid cell matches.  Skipped (apart from the
erase, handled by the caller) when the stored coordinates are out of
bounds. -/
def refillAt (h : DugHole) (s : DigState) : DigState :=
  if 0 ≤ h.gridX ∧ h.gridX < GRID_WIDTH ∧ 0 ≤ h.gridY ∧ h.gridY < GRID_HEIGHT
  then
    let lvl := updLevel s.level h.gridY h.gridX h.originalType
    let p :=
      if s.player.isTrapped ∧
          getGridX (s.player.x + TILE_SIZE * (4/10)) = h.gridX ∧
          getGridY s.player.y = h.gridY then
        freePlayer s.player
      else s.player
    let es := s.enemies.map fun en =>
      if en.isAlive ∧ en.isTrapped ∧
          getGridX (en.x + TILE_SIZE * (4/10)) = h.gridX ∧
          getGridY en.y = h.gridY then
        killEnemy en
      else en
    { level := lvl, player := p, enemies := es }
  else s

/-- The `updateDigging` iteration: each entry's timer is decremented by dt;
an entry reaching ≤ 0 is erased after applying its refill consequences,
otherwise it is kept. -/
def updateDiggingAux (dt : ℚ) : HoleMap → DigState → HoleMap × DigState
  | [], s => ([], s)
  | (k, h) :: rest, s =>
    let h' := { h with timer := h.timer - dt }
    if h'.timer ≤ 0 then updateDiggingAux dt rest (refillAt h' s)
    else
      let r := updateDiggingAux dt rest s
      ((k, h') :: r.1, r.2)

/-- `revealExitLadder` main scan: for each column, a LADDER in the second
row from the top with EMPTY or LADDER above it turns the top cell into
EXIT_LADDER. -/
def revealScanGo : List Int → Level → Level
  | [], lvl => lvl
  | x :: rest, lvl =>
    let lvl' :=
      if lvl (GRID_HEIGHT - 2) x = LADDER ∧
          (lvl (GRID_HEIGHT - 1) x = EMPTY ∨ lvl (GRID_HEIGHT - 1) x = LADDER)
      then updLevel lvl (GRID_HEIGHT - 1) x EXIT_LADDER
      else lvl
    revealScanGo rest lvl'

/-- Column indices 0..GRID_WIDTH-1 as integers. -/
def gridXs : List Int := (List.range 20).map Int.ofNat

/-- `revealExitLadder`: the main scan, then — if no EXIT_LADDER ended up in
the top row — a fallback that places one at the top center whenever the cell
below the top center is LADDER or EMPTY (overwriting whatever is stored in
the top-center cell). -/
def revealExitLadder (lvl : Level) : Level :=
  let lvl1 := revealScanGo gridXs lvl
  let foundExit := gridXs.any fun x => lvl1 (GRID_HEIGHT - 1) x == EXIT_LADDER
  if !foundExit then
    let centerX := GRID_WIDTH / 2
    if lvl1 (GRID_HEIGHT - 2) centerX = LADDER ∨
        lvl1 (GRID_HEIGHT - 2) centerX = EMPTY then
      updLevel lvl1 (GRID_HEIGHT - 1) centerX EXIT_LADDER
    else lvl1
  else lvl1

/-- Integers `lo, lo+1, ..., hi-1`. -/
def intsFromTo (lo hi : Int) : List Int :=
  (List.range (hi - lo).toNat).map fun n => lo + n

/-- The `ladderAbove` scan of the enemy AI: walk rows upward from the head
row; a LADDER ends the scan positively, BRICK/SOLID_BRICK ends it
negatively, anything else continues. -/
def ladderAboveScan (lvl : Level) (holes : HoleMap) (cx : ℚ) :
    List Int → Bool
  | [] => false
  | y :: rest =>
    let t := getTileAt lvl holes cx ((y : ℚ) * TILE_SIZE + 1)
    if t = LADDER then true
    else if t = BRICK ∨ t = SOLID_BRICK then false
    else ladderAboveScan lvl holes cx rest

/-- The enemy AI decision phase of `updateEnemies` (lines before the physics
call): priority-ordered pursuit — ladder climbing on vertical misalignment,
rope traversal with the vertical centering nudge, horizontal chase — then
hazard avoidance, committing desired velocity, the climb flag and facing. -/
def enemyAI (lvl : Level) (holes : HoleMap) (player : Entity) (en0 : Entity) :
    Entity :=
  let diffX := player.x - en0.x
  let diffY := player.y - en0.y
  let enemyCenterX := en0.x + entityWidth / 2
  let enemyFeetY := en0.y
  let enemyHeadY := en0.y + entityHeight
  let enemyGridY := getGridY enemyFeetY
  let enemyHeadGridY := getGridY enemyHeadY
  let enemyOnLadder := isOnLadder lvl holes en0
  let enemyOnRope := checkOnRope lvl holes en0
  let en := { en0 with isOnRope := enemyOnRope }
  let ladderAtFeet := getTileAt lvl holes enemyCenterX enemyFeetY = LADDER
  let ladderBelow :=
    getTileAt lvl holes enemyCenterX (enemyFeetY - 1) = LADDER ∨ ladderAtFeet
  let ladderAbove :=
    ladderAboveScan lvl holes enemyCenterX (intsFromTo enemyHeadGridY GRID_HEIGHT)
  let ropeAtLevel :=
    getTileAt lvl holes enemyCenterX (en0.y + entityHeight * (5/10)) = ROPE
  let canMoveLeft :=
    canMoveTo lvl holes (en0.x - 1) en0.y entityWidth entityHeight
      enemyOnRope enemyOnLadder
  let canMoveRight :=
    canMoveTo lvl holes (en0.x + 1) en0.y entityWidth entityHeight
      enemyOnRope enemyOnLadder
  -- priority-ordered decision: (desiredVX, desiredVY, wantsToClimb, entity)
  let dec : ℚ × ℚ × Bool × Entity :=
    if |diffY| > TILE_SIZE * (3/4) then
      if diffY > 0 ∧ ladderAbove then (0, CLIMB_SPEED, true, en)
      else if diffY < 0 ∧ ladderBelow then (0, -CLIMB_SPEED, true, en)
      else if ropeAtLevel ∧ |diffY| < TILE_SIZE * (3/2) then
        (if diffX > TILE_SIZE * (2/10) ∧ canMoveRight then ROPE_SPEED
         else if diffX < -(TILE_SIZE * (2/10)) ∧ canMoveLeft then -ROPE_SPEED
         else 0, 0, false, en)
      else
        (if diffX > TILE_SIZE * (2/10) ∧ canMoveRight then ENEMY_SPEED
         else if diffX < -(TILE_SIZE * (2/10)) ∧ canMoveLeft then -ENEMY_SPEED
         else 0, 0, false, en)
    else
      if enemyOnRope then
        let dvx :=
          if diffX > TILE_SIZE * (2/10) ∧ canMoveRight then ROPE_SPEED
          else if diffX < -(TILE_SIZE * (2/10)) ∧ canMoveLeft then -ROPE_SPEED
          else 0
        let ropeGridY := getGridY (en.y + entityHeight * (5/10))
        let en :=
          if 0 ≤ ropeGridY ∧ ropeGridY < GRID_HEIGHT then
            let targetRopeY := (ropeGridY : ℚ) * TILE_SIZE
            let en :=
              if |en.y - targetRopeY| > 1 then
                { en with y := en.y + (targetRopeY - en.y) * (1/10) }
              else en
            { en with vy := 0, isFalling := false }
          else en
        (dvx, 0, false, en)
      else if ladderAtFeet ∧ |diffX| < TILE_SIZE * (6/10) then
        (if diffX > TILE_SIZE * (2/10) ∧ canMoveRight then ENEMY_SPEED / 2
         else if diffX < -(TILE_SIZE * (2/10)) ∧ canMoveLeft then
           -(ENEMY_SPEED / 2)
         else 0, 0, false, en)
      else
        (if diffX > TILE_SIZE * (2/10) ∧ canMoveRight then ENEMY_SPEED
         else if diffX < -(TILE_SIZE * (2/10)) ∧ canMoveLeft then -ENEMY_SPEED
         else 0, 0, false, en)
  let desiredVX0 := dec.1
  let desiredVY := dec.2.1
  let wantsToClimb := dec.2.2.1
  let en := dec.2.2.2
  -- hazard avoidance: look ahead one box width before committing
  let desiredVX :=
    if ¬wantsToClimb ∧ ¬enemyOnRope ∧ desiredVX0 ≠ 0 ∧ ¬en.isFalling then
      let nextX := enemyCenterX +
        (if desiredVX0 > 0 then TILE_SIZE * (6/10) else -(TILE_SIZE * (6/10)))
      let checkYBelowNext := enemyFeetY - 1
      let tileBelowNext := getTileAt lvl holes nextX checkYBelowNext
      let tileAtNextFeet := getTileAt lvl holes nextX enemyFeetY
      let holeBelowNext :=
        (findHole holes (getGridX nextX, getGridY checkYBelowNext)).isSome
      let emptyBelowNext := tileBelowNext = EMPTY ∧ ¬holeBelowNext
      let v1 :=
        if emptyBelowNext ∧ tileAtNextFeet ≠ LADDER ∧ tileAtNextFeet ≠ ROPE
        then
          if diffY > -TILE_SIZE then 0 else desiredVX0
        else desiredVX0
      let holeAtNextFeet := (findHole holes (getGridX nextX, enemyGridY)).isSome
      if holeAtNextFeet ∧ tileAtNextFeet ≠ LADDER ∧ tileAtNextFeet ≠ ROPE
      then 0
      else v1
    else desiredVX0
  { en with
    vx := desiredVX
    vy := desiredVY
    isClimbing := wantsToClimb
    faceRight := if desiredVX ≠ 0 then decide (desiredVX > 0) else en.faceRight }

/-- Enemy re-initialization on respawn-timer expiry; `r` is the boolean
`rand() % 2 == 0` draw fixing the random initial direction. -/
def respawnEnemy (r : Bool) (en : Entity) : Entity :=
  let vx := (if r then 1 else -1) * (ENEMY_SPEED / 2)
  { en with
    x := (en.startGridX : ℚ) * TILE_SIZE + TILE_SIZE * (1/10)
    y := (en.startGridY : ℚ) * TILE_SIZE
    vx := vx
    vy := 0
    isClimbing := false
    isOnRope := false
    isFalling := false
    faceRight := decide (vx > 0)
    isTrapped := false
    trappedTimer := 0
    isAlive := true
    respawnTimer := 0 }

/-- One iteration of the `updateEnemies` loop for enemy index `i`: respawn
handling for dead enemies, physics-only update for trapped enemies, else
AI decision, physics, and the player-contact check (life loss / game over /
position resets).  `r` is the boolean random draw for this enemy. -/
def updateEnemiesStep (lvl : Level) (holes : HoleMap) (gameWon : Bool)
    (dt : ℚ) (r : Bool) (i : Nat) (player : Entity) (es : List Entity)
    (lives : Int) (gameOver : Bool) : Entity × List Entity × Int × Bool :=
  match es.get? i with
  | none => (player, es, lives, gameOver)
  | some en =>
    if !en.isAlive then
      let en := { en with respawnTimer := en.respawnTimer - dt }
      let en := if en.respawnTimer ≤ 0 then respawnEnemy r en else en
      (player, es.set i en, lives, gameOver)
    else if en.isTrapped then
      let pr := updatePhysics lvl holes (es.eraseIdx i) false lives gameOver dt en
      (player, es.set i pr.1, pr.2.1, pr.2.2)
    else
      let en1 := enemyAI lvl holes player en
      let pr := updatePhysics lvl holes (es.eraseIdx i) false lives gameOver dt en1
      let en2 := pr.1
      let lives1 := pr.2.1
      let go1 := pr.2.2
      if !player.isTrapped &&
          isColliding player.x player.y (TILE_SIZE * (8/10))
            (TILE_SIZE * (95/100)) en2.x en2.y entityWidth entityHeight then
        if !go1 && !gameWon then
          let lives2 := lives1 - 1
          if lives2 ≤ 0 then (player, es.set i en2, lives2, true)
          else
            let player' :=
              { player with
                x := (player.startGridX : ℚ) * TILE_SIZE + TILE_SIZE * (1/10)
                y := (player.startGridY : ℚ) * TILE_SIZE
                vx := 0
                vy := 0
                isFalling := false
                isTrapped := false
                isJumping := false }
            let vx := (if r then 1 else -1) * (ENEMY_SPEED / 2)
            let en3 :=
              { en2 with
                x := (en2.startGridX : ℚ) * TILE_SIZE + TILE_SIZE * (1/10)
                y := (en2.startGridY : ℚ) * TILE_SIZE
                vx := vx
                isAlive := true
                isTrapped := false
                vy := 0
                isClimbing := false
                isOnRope := false
                isFalling := false
                faceRight := decide (vx > 0) }
            (player', es.set i en3, lives2, go1)
        else (player, es.set i en2, lives1, go1)
      else (player, es.set i en2, lives1, go1)

/-- `updateEnemies(deltaTime)`: the loop over all enemy indices.  `rnd`
abstracts the `rand()` direction draws (one potential draw per enemy per
tick). -/
def updateEnemies (lvl : Level) (holes : HoleMap) (gameWon : Bool)
    (rnd : Nat → Bool) (dt : ℚ) (player : Entity) (es : List Entity)
    (lives : Int) (gameOver : Bool) : Entity × List Entity × Int × Bool :=
  (List.range es.length).foldl
    (fun st i =>
      updateEnemiesStep lvl holes gameWon dt (rnd i) i st.1 st.2.1 st.2.2.1
        st.2.2.2)
    (player, es, lives, gameOver)

/-- The 3×3 pickup scan offsets of `updatePlayer`, in source loop order
(dx outer, dy inner). -/
def pickupOffsets : List (Int × Int) :=
  [(-1, -1), (-1, 0), (-1, 1), (0, -1), (0, 0), (0, 1), (1, -1), (1, 0),
    (1, 1)]

/-- One cell of the collectible pickup scan: collect when in bounds, marked,
and overlapping the player's box.  State is (collectible grid, collected
count, score). -/
def pickupStep (p : Entity) (cgx cgy : Int)
    (st : (Int → Int → Bool) × Int × Int) (d : Int × Int) :
    (Int → Int → Bool) × Int × Int :=
  let checkX := cgx + d.1
  let checkY := cgy + d.2
  if 0 ≤ checkX ∧ checkX < GRID_WIDTH ∧ 0 ≤ checkY ∧ checkY < GRID_HEIGHT then
    if st.1 checkY checkX then
      let collectibleX := (checkX : ℚ) * TILE_SIZE + TILE_SIZE * (2/10)
      let collectibleY := (checkY : ℚ) * TILE_SIZE + TILE_SIZE * (2/10)
      let collectibleSize := TILE_SIZE * (6/10)
      if isColliding p.x p.y (TILE_SIZE * (8/10)) (TILE_SIZE * (95/100))
          collectibleX collectibleY collectibleSize collectibleSize then
        (fun y x => if y = checkY ∧ x = checkX then false else st.1 y x,
          st.2.1 + 1, st.2.2 + 100)
      else st
    else st
  else st

/-- The whole mutable simulation state (the global variables of main.cpp
that carry game logic; the cosmetic `gameTime` and the raw key tables not
read by the logic are omitted). -/
structure GameState where
  level : Level
  dugHoles : HoleMap
  player : Entity
  enemies : List Entity
  collectibles : Int → Int → Bool
  collectiblesCollected : Int
  totalCollectibles : Int
  score : Int
  lives : Int
  gameOver : Bool
  gameWon : Bool
  levelComplete : Bool
  keys : Keys

/-- `handleInput` acting on the state aggregate. -/
def handleInputS (st : GameState) : GameState :=
  let r := handleInput st.level st.dugHoles st.enemies st.gameOver st.gameWon
    st.keys st.player
  { st with player := r.1, keys := r.2.1, dugHoles := r.2.2 }

/-- `updatePlayer(deltaTime)`: physics for the player, the 3×3 collectible
pickup scan, and the exit-ladder win check. -/
def updatePlayerS (dt : ℚ) (st : GameState) : GameState :=
  if !st.player.isAlive then st
  else
    let pr := updatePhysics st.level st.dugHoles st.enemies true st.lives
      st.gameOver dt st.player
    let p := pr.1
    let playerCenterX := p.x + TILE_SIZE * (8/10) / 2
    let playerCenterY := p.y + TILE_SIZE * (95/100) / 2
    let centerGridX := getGridX playerCenterX
    let centerGridY := getGridY playerCenterY
    let pick := pickupOffsets.foldl (pickupStep p centerGridX centerGridY)
      (st.collectibles, st.collectiblesCollected, st.score)
    let gameWon' :=
      if st.levelComplete ∧ ¬st.gameWon ∧
          getGridY (p.y + TILE_SIZE * (9/10)) ≥ GRID_HEIGHT - 2 ∧
          (getTileAt st.level st.dugHoles playerCenterX
              (p.y + TILE_SIZE * (9/10)) = EXIT_LADDER ∨
            getTileAt st.level st.dugHoles playerCenterX (p.y + 1) =
              EXIT_LADDER) then
        true
      else st.gameWon
    { st with
      player := p
      lives := pr.2.1
      gameOver := pr.2.2
      collectibles := pick.1
      collectiblesCollected := pick.2.1
      score := pick.2.2
      gameWon := gameWon' }

/-- `updateEnemies` acting on the state aggregate. -/
def updateEnemiesS (rnd : Nat → Bool) (dt : ℚ) (st : GameState) : GameState :=
  let r := updateEnemies st.level st.dugHoles st.gameWon rnd dt st.player
    st.enemies st.lives st.gameOver
  { st with
    player := r.1
    enemies := r.2.1
    lives := r.2.2.1
    gameOver := r.2.2.2 }

/-- `updateDigging(deltaTime)` acting on the state aggregate. -/
def updateDiggingS (dt : ℚ) (st : GameState) : GameState :=
  let r := updateDiggingAux dt st.dugHoles
    { level := st.level, player := st.player, enemies := st.enemies }
  { st with
    dugHoles := r.1
    level := r.2.level
    player := r.2.player
    enemies := r.2.enemies }

/-- `checkLevelCompletion`: once all collectibles are collected (with a
positive total) and the level is not yet complete, set level-complete and
reveal the exit ladder. -/
def checkLevelCompletionS (st : GameState) : GameState :=
  if ¬st.levelComplete ∧ st.collectiblesCollected ≥ st.totalCollectibles ∧
      st.totalCollectibles > 0 then
    { st with levelComplete := true, level := revealExitLadder st.level }
  else st

/-- `digHole` acting on the state aggregate (the source function touches
only the hole registry). -/
def digHoleS (st : GameState) (gridX gridY : Int) : GameState :=
  { st with dugHoles := digHole st.level st.dugHoles gridX gridY }

/-- One simulated tick, `update(int)` in main.cpp: the delta-time clamp to
100 ms, then — unless the game is over or won — input, player update, enemy
updates, hole decay and the win-condition check.  (`handleInput`'s unused
`deltaTime` parameter is dropped; the cosmetic `gameTime` accumulator is
outside the model.) -/
def updateTick (rnd : Nat → Bool) (dtRaw : ℚ) (st : GameState) : GameState :=
  let dt := if dtRaw > 1/10 then 1/10 else dtRaw
  if !st.gameOver && !st.gameWon then
    checkLevelCompletionS (updateDiggingS dt (updateEnemiesS rnd dt
      (updatePlayerS dt (handleInputS st))))
  else st

/-- The fixed compiled level layout of `initLevel` (index 0 is the top row;
row `y` of the grid reads layout row `14 - y`). -/
def levelLayout : List String :=
  [ "SSSSSSSSSSSSSSSSSSSS",
    "SEEEEEEEEEEEEEEEEEES",
    "SCBBCBBLBBBBBLBBCBCS",
    "SLRRRRRLRRRRRLRRRRRS",
    "SL C C L C C L C C LS",
    "SCBBLBBBLELBBBBLBBBS",
    "SRRRRR C L C C RRCRRS",
    "SE E E B L B E E E ES",
    "SBBBEBBBLBLBBBBBBBBS",
    "SC RRRR L L RRRRR CS",
    "SE E E B L B E E E ES",
    "SBCBEBBBLBLBBBEBBEBS",
    "SXXXXXXELPBLXXXXXXBS",
    "SEEEEE B B B EEEEEES",
    "SSSSSSSSSSSSSSSSSSSS" ]

/-- The layout character of grid cell (y, x); cells past a short row, like
cells outside the grid, read as a space (left EMPTY by the loader). -/
def layoutChar (y x : Int) : Char :=
  if 0 ≤ y ∧ y < GRID_HEIGHT ∧ 0 ≤ x ∧ x < GRID_WIDTH then
    match levelLayout.get? (GRID_HEIGHT - 1 - y).toNat with
    | some row =>
      match row.data.get? x.toNat with
      | some c => c
      | none => ' '
    | none => ' '
  else ' '

/-- The tile stored by `initLevel` for one layout character ('C' places a
BRICK; 'P', 'X', 'E' and anything unrecognized leave the cell EMPTY). -/
def charToTile (c : Char) : TileType :=
  if c = 'S' then SOLID_BRICK
  else if c = 'B' then BRICK
  else if c = 'L' then LADDER
  else if c = 'R' then ROPE
  else if c = 'C' then BRICK
  else EMPTY

/-- The tile grid right after `initLevel`. -/
def initialLevel : Level := fun y x => charToTile (layoutChar y x)

/-- The collectible grid right after `initLevel`: a 'C' at (yc, x) marks the
cell above it (or its own cell when on the top row). -/
def initialCollectibles : Int → Int → Bool := fun y x =>
  decide ((1 ≤ y ∧ y < GRID_HEIGHT ∧ layoutChar (y - 1) x = 'C') ∨
    (y = GRID_HEIGHT - 1 ∧ layoutChar y x = 'C'))

/-- All grid cells in `initLevel` scan order (y outer ascending, x inner
ascending), as (x, y) pairs. -/
def scanOrder : List (Int × Int) :=
  (intsFromTo 0 GRID_HEIGHT).foldl
    (fun acc y => acc ++ (intsFromTo 0 GRID_WIDTH).map fun x => (x, y)) []

/-- `totalCollectibles` after `initLevel`: one per 'C' in the layout. -/
def initialTotalCollectibles : Int :=
  scanOrder.foldl (fun acc c => if layoutChar c.2 c.1 = 'C' then acc + 1 else acc) 0

/-- The player start cell: the last 'P' marker in scan order, defaulting to
(1, 3). -/
def playerStart : Int × Int :=
  scanOrder.foldl (fun acc c => if layoutChar c.2 c.1 = 'P' then c else acc)
    (1, 3)

/-- The enemy start markers ('X') in scan order. -/
def enemyStartPositions : List (Int × Int) :=
  scanOrder.filter fun c => layoutChar c.2 c.1 = 'X'

/-- The start cell assigned to enemy `i` by `initLevel` (markers cycled;
fallback cells when no marker exists). -/
def enemyStart (i : Nat) : Int × Int :=
  if enemyStartPositions.isEmpty then ((GRID_WIDTH - 2 - (i : Int)), 2)
  else enemyStartPositions.getD (i % enemyStartPositions.length) (0, 0)

/-- The player right after `initEntities`. -/
def initialPlayer : Entity :=
  { x := (playerStart.1 : ℚ) * TILE_SIZE + TILE_SIZE * (1/10)
    y := (playerStart.2 : ℚ) * TILE_SIZE
    vx := 0
    vy := 0
    isJumping := false
    isClimbing := false
    isOnRope := false
    isFalling := false
    faceRight := true
    isTrapped := false
    trappedTimer := 0
    isAlive := true
    respawnTimer := 0
    startGridX := playerStart.1
    startGridY := playerStart.2 }

/-- Enemy `i` right after `initEntities`; `r` is its random direction
draw. -/
def initialEnemy (r : Bool) (i : Nat) : Entity :=
  let s := enemyStart i
  let vx := (if r then 1 else -1) * (ENEMY_SPEED / 2)
  { x := (s.1 : ℚ) * TILE_SIZE + TILE_SIZE * (1/10)
    y := (s.2 : ℚ) * TILE_SIZE
    vx := vx
    vy := 0
    isJumping := false
    isClimbing := false
    isOnRope := false
    isFalling := false
    faceRight := decide (vx > 0)
    isTrapped := false
    trappedTimer := 0
    isAlive := true
    respawnTimer := 0
    startGridX := s.1
    startGridY := s.2 }

/-- The key table with nothing held. -/
def noKeys : Keys :=
  { kA := false, kD := false, kW := false, kS := false, kSpace := false,
    kQ := false, kE := false, kLeft := false, kRight := false, kUp := false,
    kDown := false }

/-- The full game state right after `init()` (level, entities, session
scalars); `rnd` fixes the three random enemy direction draws. -/
def initialState (rnd : Nat → Bool) : GameState :=
  { level := initialLevel
    dugHoles := []
    player := initialPlayer
    enemies := [initialEnemy (rnd 0) 0, initialEnemy (rnd 1) 1,
      initialEnemy (rnd 2) 2]
    collectibles := initialCollectibles
    collectiblesCollected := 0
    totalCollectibles := initialTotalCollectibles
    score := 0
    lives := INITIAL_LIVES
    gameOver := false
    gameWon := false
    levelComplete := false
    keys := noKeys }

/-- Registry well-formedness: every entry's key lies inside the grid —
`digHole`, the registry's only insertion point, checks exactly this. -/
def holesInBounds (holes : HoleMap) : Bool :=
  holes.all fun kh =>
    decide (0 ≤ kh.1.1 ∧ kh.1.1 < GRID_WIDTH ∧ 0 ≤ kh.1.2 ∧
      kh.1.2 < GRID_HEIGHT)

/-! ### Association-list lemmas for the hole registry -/

theorem findHole_mem {holes : HoleMap} {k : Int × Int} {h : DugHole}
    (hf : findHole holes k = some h) : (k, h) ∈ holes := by
  induction holes with
  | nil => simp [findHole] at hf
  | cons kh rest ih =>
    obtain ⟨k0, h0⟩ := kh
    by_cases hk : k0 = k
    · subst hk
      simp [findHole] at hf
      subst hf
      exact List.mem_cons_self _ _
    · simp [findHole, hk] at hf
      exact List.mem_cons_of_mem _ (ih hf)

theorem findHole_insert_self {holes : HoleMap} {k : Int × Int} {h : DugHole}
    (habs : findHole holes k = none) :
    findHole (insertHole holes k h) k = some h := by
  induction holes with
  | nil => simp [insertHole, findHole]
  | cons kh rest ih =>
    obtain ⟨k0, h0⟩ := kh
    by_cases hk : k0 = k
    · subst hk; simp [findHole] at habs
    · simp only [findHole, if_neg hk] at habs
      by_cases hlt : keyLt k k0
      · simp [insertHole, if_pos hlt, findHole]
      · simp [insertHole, if_neg hlt, findHole, hk, ih habs]

theorem findHole_insert_ne {holes : HoleMap} {k k' : Int × Int}
    {h : DugHole} (hne : k' ≠ k) :
    findHole (insertHole holes k h) k' = findHole holes k' := by
  have hkk : k ≠ k' := fun hh => hne hh.symm
  induction holes with
  | nil => simp [insertHole, findHole, hkk]
  | cons kh rest ih =>
    obtain ⟨k0, h0⟩ := kh
    by_cases hlt : keyLt k k0
    · simp [insertHole, if_pos hlt, findHole, hkk]
    · simp [insertHole, if_neg hlt, findHole, ih]

theorem length_insertHole (holes : HoleMap) (k : Int × Int) (h : DugHole) :
    (insertHole holes k h).length = holes.length + 1 := by
  induction holes with
  | nil => simp [insertHole]
  | cons kh rest ih =>
    obtain ⟨k0, h0⟩ := kh
    by_cases hlt : keyLt k k0
    · simp [insertHole, if_pos hlt]
    · simp [insertHole, if_neg hlt, ih]

/-! ### C1: the hole-aware bounded tile query -/

/-- C1.  `getTileAt` honors the hole-registry override and the bounds rule:
with a well-formed registry, a world coordinate whose grid cell holds an
active hole entry reads EMPTY regardless of the stored tile; a coordinate
whose cell index is outside the 20×15 grid reads SOLID_BRICK; any other
coordinate reads the stored grid tile. -/
theorem getTileAt_spec (lvl : Level) (holes : HoleMap) (x y : ℚ)
    (hwf : holesInBounds holes = true) :
    ((findHole holes (getGridX x, getGridY y)).isSome →
      getTileAt lvl holes x y = EMPTY) ∧
    ((getGridX x < 0 ∨ getGridX x ≥ GRID_WIDTH ∨ getGridY y < 0 ∨
        getGridY y ≥ GRID_HEIGHT) →
      getTileAt lvl holes x y = SOLID_BRICK) ∧
    ((0 ≤ getGridX x ∧ getGridX x < GRID_WIDTH ∧ 0 ≤ getGridY y ∧
        getGridY y < GRID_HEIGHT) →
      findHole holes (getGridX x, getGridY y) = none →
      getTileAt lvl holes x y = lvl (getGridY y) (getGridX x)) := by
  refine ⟨?_, ?_, ?_⟩
  · intro hsome
    obtain ⟨h, hh⟩ := Option.isSome_iff_exists.mp hsome
    have hmem := findHole_mem hh
    have hb := (List.all_eq_true.mp hwf) _ hmem
    have hb' := of_decide_eq_true hb
    simp only [getTileAt]
    rw [if_neg, hh]
    push_neg
    exact ⟨hb'.1, hb'.2.1, hb'.2.2.1, hb'.2.2.2⟩
  · intro hout
    simp only [getTileAt]
    rw [if_pos hout]
  · intro hin hnone
    simp only [getTileAt]
    rw [if_neg, hnone]
    push_neg
    exact ⟨hin.1, hin.2.1, hin.2.2.1, hin.2.2.2⟩

/-- A concrete registry entry used by witnesses. -/
def witnessHole : DugHole :=
  { gridX := 1, gridY := 2, timer := 7, originalType := BRICK }

/-- Witness for C1 at concrete inputs: cell (1,2) holds an entry and the
query at (50, 90) reads EMPTY even though the stored tile at (2,1) in the
initial level is BRICK; the query at (-1, 0) reads SOLID_BRICK; with an
empty registry the query at (50, 90) reads the stored tile. -/
theorem getTileAt_spec_witness :
    getTileAt initialLevel [((1, 2), witnessHole)] 50 90 = EMPTY ∧
    getTileAt initialLevel [] (-1) 0 = SOLID_BRICK ∧
    getTileAt initialLevel [] 50 90 = initialLevel 2 1 := by
  refine ⟨?_, ?_, ?_⟩
  · exact (getTileAt_spec initialLevel [((1, 2), witnessHole)] 50 90
      (by with_unfolding_all decide)).1 (by with_unfolding_all decide)
  · exact (getTileAt_spec initialLevel [] (-1) 0 rfl).2.1
      (by with_unfolding_all decide)
  · have := (getTileAt_spec initialLevel [] 50 90 rfl).2.2
      (by with_unfolding_all decide) rfl
    convert this using 2 <;> with_unfolding_all decide

/-! ### C3 / C10: digging -/

theorem ratFloor_eq_intFloor (q : ℚ) : q.floor = ⌊q⌋ := rfl

theorem getGridX_intCast (g : Int) : getGridX ((g : ℚ) * TILE_SIZE) = g := by
  unfold getGridX TILE_SIZE
  rw [ratFloor_eq_intFloor, mul_div_assoc]
  norm_num

theorem getGridY_intCast (g : Int) : getGridY ((g : ℚ) * TILE_SIZE) = g := by
  unfold getGridY TILE_SIZE
  rw [ratFloor_eq_intFloor, mul_div_assoc]
  norm_num

/-- C3.  `digHole` is a strict no-op — the whole game state, hole registry
included, is returned unchanged — when the target cell is out of bounds,
not stored as BRICK, or already registered; otherwise it adds exactly one
entry for that cell, with timer 7.0 and original kind BRICK, leaving every
other key's binding unchanged. -/
theorem digHole_spec (st : GameState) (gx gy : Int) :
    ((gx < 0 ∨ gx ≥ GRID_WIDTH ∨ gy < 0 ∨ gy ≥ GRID_HEIGHT ∨
        st.level gy gx ≠ BRICK ∨ (findHole st.dugHoles (gx, gy)).isSome) →
      digHoleS st gx gy = st) ∧
    (0 ≤ gx → gx < GRID_WIDTH → 0 ≤ gy → gy < GRID_HEIGHT →
      st.level gy gx = BRICK → findHole st.dugHoles (gx, gy) = none →
      (digHoleS st gx gy).dugHoles.length = st.dugHoles.length + 1 ∧
      findHole (digHoleS st gx gy).dugHoles (gx, gy) =
        some (newHoleAt gx gy) ∧
      ∀ k, k ≠ (gx, gy) →
        findHole (digHoleS st gx gy).dugHoles k = findHole st.dugHoles k) := by
  constructor
  · intro hrej
    have hmap : digHole st.level st.dugHoles gx gy = st.dugHoles := by
      unfold digHole
      rcases hrej with h | h | h | h | h | h
      · rw [if_pos (Or.inl h)]
      · rw [if_pos (Or.inr (Or.inl h))]
      · rw [if_pos (Or.inr (Or.inr (Or.inl h)))]
      · rw [if_pos (Or.inr (Or.inr (Or.inr h)))]
      · by_cases hb : gx < 0 ∨ gx ≥ GRID_WIDTH ∨ gy < 0 ∨ gy ≥ GRID_HEIGHT
        · rw [if_pos hb]
        · rw [if_neg hb, if_neg h]
      · by_cases hb : gx < 0 ∨ gx ≥ GRID_WIDTH ∨ gy < 0 ∨ gy ≥ GRID_HEIGHT
        · rw [if_pos hb]
        · rw [if_neg hb]
          by_cases hbr : st.level gy gx = BRICK
          · rw [if_pos hbr,
              if_neg (fun hn => by rw [hn] at h; simp at h)]
          · rw [if_neg hbr]
    show { st with dugHoles := digHole st.level st.dugHoles gx gy } = st
    rw [hmap]
  · intro h1 h2 h3 h4 hbrick hnone
    have hmap : digHole st.level st.dugHoles gx gy =
        insertHole st.dugHoles (gx, gy) (newHoleAt gx gy) := by
      unfold digHole
      rw [if_neg (by push_neg; exact ⟨h1, h2, h3, h4⟩),
        if_pos hbrick, if_pos hnone]
    refine ⟨?_, ?_, ?_⟩
    · show (digHole st.level st.dugHoles gx gy).length =
        st.dugHoles.length + 1
      rw [hmap, length_insertHole]
    · show findHole (digHole st.level st.dugHoles gx gy) (gx, gy) = _
      rw [hmap, findHole_insert_self hnone]
    · intro k hk
      show findHole (digHole st.level st.dugHoles gx gy) k = _
      rw [hmap, findHole_insert_ne hk]

/-- Witness for C3: in the initial state, digging the BRICK at cell (2, 12)
adds exactly one 7-second entry for it; digging the SOLID_BRICK at (0, 0)
changes nothing. -/
theorem digHole_spec_witness :
    (digHoleS (initialState fun _ => true) 0 0 = initialState fun _ => true) ∧
    (digHoleS (initialState fun _ => true) 2 12).dugHoles.length =
      (initialState fun _ => true).dugHoles.length + 1 ∧
    findHole (digHoleS (initialState fun _ => true) 2 12).dugHoles (2, 12) =
      some (newHoleAt 2 12) := by
  refine ⟨?_, ?_, ?_⟩
  · exact (digHole_spec (initialState fun _ => true) 0 0).1
      (by right; right; right; right; left; with_unfolding_all decide)
  · exact ((digHole_spec (initialState fun _ => true) 2 12).2
      (by decide) (by decide) (by decide) (by decide)
      (by with_unfolding_all decide) rfl).1
  · exact ((digHole_spec (initialState fun _ => true) 2 12).2
      (by decide) (by decide) (by decide) (by decide)
      (by with_unfolding_all decide) rfl).2.1

/-- C10.  A dig has no frame effects beyond the registry: `digHole` leaves
the level grid and every other state component untouched (the grid cell
under a successful dig still stores BRICK), and the dug cell's EMPTY
appearance comes solely from the registry override in `getTileAt`. -/
theorem digHole_frame (st : GameState) (gx gy : Int) :
    (digHoleS st gx gy).level = st.level ∧
    (digHoleS st gx gy).player = st.player ∧
    (digHoleS st gx gy).enemies = st.enemies ∧
    (digHoleS st gx gy).collectibles = st.collectibles ∧
    (digHoleS st gx gy).collectiblesCollected = st.collectiblesCollected ∧
    (digHoleS st gx gy).totalCollectibles = st.totalCollectibles ∧
    (digHoleS st gx gy).score = st.score ∧
    (digHoleS st gx gy).lives = st.lives ∧
    (digHoleS st gx gy).gameOver = st.gameOver ∧
    (digHoleS st gx gy).gameWon = st.gameWon ∧
    (digHoleS st gx gy).levelComplete = st.levelComplete ∧
    (digHoleS st gx gy).keys = st.keys ∧
    (0 ≤ gx → gx < GRID_WIDTH → 0 ≤ gy → gy < GRID_HEIGHT →
      st.level gy gx = BRICK → findHole st.dugHoles (gx, gy) = none →
      (digHoleS st gx gy).level gy gx = BRICK ∧
      getTileAt (digHoleS st gx gy).level (digHoleS st gx gy).dugHoles
        ((gx : ℚ) * TILE_SIZE) ((gy : ℚ) * TILE_SIZE) = EMPTY) := by
  refine ⟨rfl, rfl, rfl, rfl, rfl, rfl, rfl, rfl, rfl, rfl, rfl, rfl, ?_⟩
  intro h1 h2 h3 h4 hbrick hnone
  have hmap : digHole st.level st.dugHoles gx gy =
      insertHole st.dugHoles (gx, gy) (newHoleAt gx gy) := by
    unfold digHole
    rw [if_neg (by push_neg; exact ⟨h1, h2, h3, h4⟩),
      if_pos hbrick, if_pos hnone]
  refine ⟨hbrick, ?_⟩
  show getTileAt st.level (digHole st.level st.dugHoles gx gy) _ _ = EMPTY
  unfold getTileAt
  rw [getGridX_intCast, getGridY_intCast]
  rw [if_neg (by push_neg; exact ⟨h1, h2, h3, h4⟩)]
  rw [hmap, findHole_insert_self hnone]

/-- Witness for C10's conditional part: digging the BRICK at (2, 12) of the
initial state keeps BRICK in the grid while `getTileAt` reports EMPTY. -/
theorem digHole_frame_witness :
    (digHoleS (initialState fun _ => true) 2 12).level 12 2 = BRICK ∧
    getTileAt (digHoleS (initialState fun _ => true) 2 12).level
      (digHoleS (initialState fun _ => true) 2 12).dugHoles
      ((2 : ℚ) * TILE_SIZE) ((12 : ℚ) * TILE_SIZE) = EMPTY := by
  have h := (digHole_frame (initialState fun _ => true) 2 12).2.2.2.2.2.2.2.2.2.2.2.2
    (by decide) (by decide) (by decide) (by decide)
    (by with_unfolding_all decide) rfl
  have hcast : ((2 : Int) : ℚ) = (2 : ℚ) := by norm_num
  have hcast12 : ((12 : Int) : ℚ) = (12 : ℚ) := by norm_num
  rw [hcast, hcast12] at h
  exact h

/-! ### C9: trapped-timer seeding and clamping -/

/-- C9.  At hole capture the trapped timer is seeded from the hole entry's
remaining time minus the 0.1 epsilon, clamped to 0.01 when that difference
is negative; and in the trapped branch, a timer that runs out while the
hole entry still exists is clamped to 0.01 instead of going or staying
negative. -/
theorem trappedTimer_spec :
    (∀ (lvl : Level) (holes : HoleMap) (others : List Entity)
        (isPlayer : Bool) (e : Entity) (h : DugHole),
      e.isTrapped = false → e.isFalling = true → e.vy < 0 →
      (0 ≤ getGridX (e.x + entityWidth / 2) ∧
        getGridX (e.x + entityWidth / 2) < GRID_WIDTH ∧
        0 ≤ getGridY (e.y + 1) ∧ getGridY (e.y + 1) < GRID_HEIGHT) →
      findHole holes (getGridX (e.x + entityWidth / 2), getGridY (e.y + 1)) =
        some h →
      (checkHoleFall lvl holes others isPlayer e).trappedTimer =
        (if h.timer - 1/10 < 0 then 1/100 else h.timer - 1/10)) ∧
    (∀ (holes : HoleMap) (isPlayer : Bool) (dt : ℚ) (e : Entity),
      e.isTrapped = true → e.trappedTimer - dt ≤ 0 →
      (findHole holes
          (getGridX (e.x + TILE_SIZE * (4/10)), getGridY e.y)).isSome →
      (trappedStep holes isPlayer dt e).trappedTimer = 1/100) := by
  constructor
  · intro lvl holes others isPlayer e h htr hf hvy hbnd hfind
    have hreset : ¬(e.isFalling = true ∧ e.vy = 0 ∧
        isOnGround lvl holes others e = true) :=
      fun hc => absurd hc.2.1 (ne_of_lt hvy)
    unfold checkHoleFall
    rw [if_pos hbnd, hfind, if_neg hreset]
    dsimp only
    rw [if_pos (show e.isFalling = true ∧ ¬e.isTrapped = true by
      rw [hf, htr]; exact ⟨rfl, Bool.false_ne_true⟩)]
  · intro holes isPlayer dt e htr hle hsome
    obtain ⟨h, hfind⟩ := Option.isSome_iff_exists.mp hsome
    unfold trappedStep
    rw [if_pos (by simpa using hle)]
    simp only []
    rw [hfind]

/-- A concrete entity falling onto the registered hole cell (1, 2). -/
def fallingEntity : Entity :=
  { x := 44, y := 85, vx := 0, vy := -1, isJumping := false,
    isClimbing := false, isOnRope := false, isFalling := true,
    faceRight := true, isTrapped := false, trappedTimer := 0,
    isAlive := true, respawnTimer := 0, startGridX := 1, startGridY := 2 }

/-- A concrete entity trapped at cell (1, 2) with an expired timer. -/
def trappedEntity : Entity :=
  { x := 44, y := 80, vx := 0, vy := 0, isJumping := false,
    isClimbing := false, isOnRope := false, isFalling := false,
    faceRight := true, isTrapped := true, trappedTimer := 0,
    isAlive := true, respawnTimer := 0, startGridX := 1, startGridY := 2 }

/-- Witness for C9 at concrete inputs: seeding gives 7 − 0.1 = 6.9 for a
fresh hole, and the trapped branch clamps an expired timer to 0.01 while
the hole entry persists. -/
theorem trappedTimer_spec_witness :
    (checkHoleFall initialLevel [((1, 2), witnessHole)] [] false
      fallingEntity).trappedTimer = 69/10 ∧
    (trappedStep [((1, 2), witnessHole)] false (1/100)
      trappedEntity).trappedTimer = 1/100 := by
  constructor
  · have := trappedTimer_spec.1 initialLevel [((1, 2), witnessHole)] [] false
      fallingEntity witnessHole rfl rfl (by norm_num [fallingEntity])
      (by with_unfolding_all decide) (by with_unfolding_all decide)
    rw [this]
    with_unfolding_all decide
  · exact trappedTimer_spec.2 [((1, 2), witnessHole)] false (1/100)
      trappedEntity rfl (by norm_num [trappedEntity])
      (by with_unfolding_all decide)

/-! ### C4: the trapped state freezes the entity; hole capture -/

theorem trappedStep_freeze (holes : HoleMap) (isPlayer : Bool) (dt : ℚ)
    (e : Entity) :
    (trappedStep holes isPlayer dt e).isTrapped = true →
    (trappedStep holes isPlayer dt e).x = e.x ∧
    (trappedStep holes isPlayer dt e).y = e.y ∧
    (trappedStep holes isPlayer dt e).vx = 0 ∧
    (trappedStep holes isPlayer dt e).vy = 0 := by
  unfold trappedStep
  dsimp only
  split
  · split
    · split
      · unfold killEnemy
        split
        · intro _
          exact ⟨rfl, rfl, rfl, rfl⟩
        · intro hco
          simp at hco
      · intro hco
        simp at hco
    · intro _
      exact ⟨rfl, rfl, rfl, rfl⟩
  · intro _
    exact ⟨rfl, rfl, rfl, rfl⟩

/-- C4.  While an entity enters the physics step trapped and leaves it still
trapped, its position is unchanged and its velocity is forced to (0,0)
whatever velocity input or AI requested; and a falling entity over a cell
with an active hole entry is captured: trapped, velocity (0,0), centered
horizontally in the cell with feet at the cell bottom, falling and climbing
cleared. -/
theorem trapped_freeze_and_capture :
    (∀ (lvl : Level) (holes : HoleMap) (others : List Entity)
        (isPlayer : Bool) (lives : Int) (gameOver : Bool) (dt : ℚ)
        (e : Entity),
      e.isTrapped = true →
      (updatePhysics lvl holes others isPlayer lives gameOver dt
          e).1.isTrapped = true →
      (updatePhysics lvl holes others isPlayer lives gameOver dt e).1.x =
          e.x ∧
        (updatePhysics lvl holes others isPlayer lives gameOver dt e).1.y =
          e.y ∧
        (updatePhysics lvl holes others isPlayer lives gameOver dt e).1.vx =
          0 ∧
        (updatePhysics lvl holes others isPlayer lives gameOver dt e).1.vy =
          0) ∧
    (∀ (lvl : Level) (holes : HoleMap) (others : List Entity)
        (isPlayer : Bool) (e : Entity) (h : DugHole),
      e.isTrapped = false → e.isFalling = true → e.vy < 0 →
      (0 ≤ getGridX (e.x + entityWidth / 2) ∧
        getGridX (e.x + entityWidth / 2) < GRID_WIDTH ∧
        0 ≤ getGridY (e.y + 1) ∧ getGridY (e.y + 1) < GRID_HEIGHT) →
      findHole holes (getGridX (e.x + entityWidth / 2), getGridY (e.y + 1)) =
        some h →
      (checkHoleFall lvl holes others isPlayer e).isTrapped = true ∧
      (checkHoleFall lvl holes others isPlayer e).vx = 0 ∧
      (checkHoleFall lvl holes others isPlayer e).vy = 0 ∧
      (checkHoleFall lvl holes others isPlayer e).x =
        (getGridX (e.x + entityWidth / 2) : ℚ) * TILE_SIZE +
          (TILE_SIZE - entityWidth) / 2 ∧
      (checkHoleFall lvl holes others isPlayer e).y =
        (getGridY (e.y + 1) : ℚ) * TILE_SIZE ∧
      (checkHoleFall lvl holes others isPlayer e).isFalling = false ∧
      (checkHoleFall lvl holes others isPlayer e).isClimbing = false) := by
  constructor
  · intro lvl holes others isPlayer lives gameOver dt e htr
    have h1 : (updatePhysics lvl holes others isPlayer lives gameOver dt
        e).1 = trappedStep holes isPlayer dt e := by
      unfold updatePhysics
      rw [if_pos (by rw [htr])]
    rw [h1]
    exact trappedStep_freeze holes isPlayer dt e
  · intro lvl holes others isPlayer e h htr hf hvy hbnd hfind
    have hreset : ¬(e.isFalling = true ∧ e.vy = 0 ∧
        isOnGround lvl holes others e = true) :=
      fun hc => absurd hc.2.1 (ne_of_lt hvy)
    unfold checkHoleFall
    rw [if_pos hbnd, hfind, if_neg hreset]
    dsimp only
    rw [if_pos (show e.isFalling = true ∧ ¬e.isTrapped = true by
      rw [hf, htr]; exact ⟨rfl, Bool.false_ne_true⟩)]
    exact ⟨rfl, rfl, rfl, rfl, rfl, rfl, rfl⟩

/-- A trapped entity with a live timer and a nonzero requested velocity. -/
def trappedMovingEntity : Entity :=
  { trappedEntity with trappedTimer := 5, vx := 7, vy := 8 }

/-- Witness for C4 at concrete inputs: a trapped entity stays frozen at its
position with zero velocity through a physics step even though its input
velocity was (7, 8); a concrete falling entity over the registered hole
cell (1, 2) is captured, centered at x = 44 with feet at y = 80. -/
theorem trapped_freeze_and_capture_witness :
    ((updatePhysics initialLevel [((1, 2), witnessHole)] [] false 3 false
        (1/100) trappedMovingEntity).1.x = trappedMovingEntity.x ∧
      (updatePhysics initialLevel [((1, 2), witnessHole)] [] false 3 false
        (1/100) trappedMovingEntity).1.vx = 0) ∧
    (checkHoleFall initialLevel [((1, 2), witnessHole)] [] false
        fallingEntity).isTrapped = true ∧
    (checkHoleFall initialLevel [((1, 2), witnessHole)] [] false
        fallingEntity).x = 44 ∧
    (checkHoleFall initialLevel [((1, 2), witnessHole)] [] false
        fallingEntity).y = 80 := by
  have ha := trapped_freeze_and_capture.1 initialLevel
    [((1, 2), witnessHole)] [] false 3 false (1/100)
    trappedMovingEntity rfl (by with_unfolding_all decide)
  have hb := trapped_freeze_and_capture.2 initialLevel
    [((1, 2), witnessHole)] [] false fallingEntity witnessHole rfl rfl
    (by norm_num [fallingEntity]) (by with_unfolding_all decide)
    (by with_unfolding_all decide)
  refine ⟨⟨ha.1, ha.2.2.1⟩, hb.1, ?_, ?_⟩
  · rw [hb.2.2.2.1]
    with_unfolding_all decide
  · rw [hb.2.2.2.2.1]
    with_unfolding_all decide

/-! ### C6: horizontal collision resolution -/

/-- A two-tile wall for the horizontal-collision counterexample: BRICK at
grid cell (x=1, y=0) with a LADDER directly above it at (x=1, y=1). -/
def brickLadderLevel : Level := fun y x =>
  if y = 0 ∧ x = 1 then BRICK
  else if y = 1 ∧ x = 1 then LADDER
  else EMPTY

/-- A climbing entity moving right whose leading edge samples hit the
BRICK (bottom and middle samples) and the LADDER (top sample). -/
def climbingEntity : Entity :=
  { x := 8, y := 20, vx := 1, vy := 0, isJumping := false,
    isClimbing := true, isOnRope := false, isFalling := false,
    faceRight := true, isTrapped := false, trappedTimer := 0,
    isAlive := true, respawnTimer := 0, startGridX := 0, startGridY := 0 }

/-- Counterexample to C6 as stated.  The claim's exception requires "the
blocking sample is itself a Ladder or Rope", which a BRICK sample never is,
so the claim predicts this motion is blocked (snap + zero vx).  In the code
the exception instead looks at all three samples: here the bottom sample is
BRICK (and not a Ladder/Rope), the entity is climbing, the top sample is a
LADDER — and the resolver lets the motion through unchanged. -/
theorem horizontal_block_counterexample :
    getTileAt brickLadderLevel [] 40 24 = BRICK ∧
    isSolid (getTileAt brickLadderLevel [] 40 24) = true ∧
    climbingEntity.isClimbing = true ∧
    climbingEntity.vx = 1 ∧
    (horizontalResolve brickLadderLevel [] 20 8 climbingEntity).1 = 8 ∧
    (horizontalResolve brickLadderLevel [] 20 8 climbingEntity).2.vx = 1 := by
  refine ⟨?_, ?_, rfl, rfl, ?_, ?_⟩ <;> with_unfolding_all decide

/-- The leading-edge x coordinate sampled by horizontal resolution. -/
def leadingEdgeX (newX : ℚ) (e : Entity) : ℚ :=
  if e.vx < 0 then newX else newX + entityWidth

/-- The three leading-edge samples of horizontal resolution (near bottom,
middle, near top of the box). -/
def hSampleBottom (lvl : Level) (holes : HoleMap) (newY newX : ℚ)
    (e : Entity) : TileType :=
  getTileAt lvl holes (leadingEdgeX newX e) (newY + TILE_SIZE * (1/10))

def hSampleMiddle (lvl : Level) (holes : HoleMap) (newY newX : ℚ)
    (e : Entity) : TileType :=
  getTileAt lvl holes (leadingEdgeX newX e) (newY + entityHeight * (5/10))

def hSampleTop (lvl : Level) (holes : HoleMap) (newY newX : ℚ)
    (e : Entity) : TileType :=
  getTileAt lvl holes (leadingEdgeX newX e) (newY + entityHeight * (9/10))

/-- When horizontal motion is blocked: some leading-edge sample is solid,
and the escape clause — actively climbing or on a rope AND at least one of
the three samples a Ladder or Rope — does not apply. -/
def hBlockedCond (lvl : Level) (holes : HoleMap) (newY newX : ℚ)
    (e : Entity) : Prop :=
  (isSolid (hSampleBottom lvl holes newY newX e) ||
    isSolid (hSampleMiddle lvl holes newY newX e) ||
    isSolid (hSampleTop lvl holes newY newX e)) = true ∧
  ((e.isClimbing || e.isOnRope) = false ∨
    (hSampleBottom lvl holes newY newX e ≠ LADDER ∧
      hSampleBottom lvl holes newY newX e ≠ ROPE ∧
      hSampleMiddle lvl holes newY newX e ≠ LADDER ∧
      hSampleMiddle lvl holes newY newX e ≠ ROPE ∧
      hSampleTop lvl holes newY newX e ≠ LADDER ∧
      hSampleTop lvl holes newY newX e ≠ ROPE))

instance (lvl : Level) (holes : HoleMap) (newY newX : ℚ) (e : Entity) :
    Decidable (hBlockedCond lvl holes newY newX e) := by
  unfold hBlockedCond
  infer_instance

/-- C6 (amended).  Horizontal resolution samples the tile kind at the
entity's leading edge at three vertical offsets; a Brick/SolidBrick sample
blocks the motion — snapping to the tile boundary and zeroing horizontal
velocity — unless the entity is actively climbing or on a rope AND at least
one of the three samples (not necessarily the blocking one) is a Ladder or
Rope; in every other case position and velocity pass through unchanged. -/
theorem horizontalResolve_spec (lvl : Level) (holes : HoleMap)
    (newY newX : ℚ) (e : Entity) (hvx : e.vx ≠ 0) :
    (hBlockedCond lvl holes newY newX e →
      horizontalResolve lvl holes newY newX e =
        if e.vx < 0 then
          (((getGridX (leadingEdgeX newX e) : ℚ) + 1) * TILE_SIZE,
            { e with vx := 0 })
        else
          ((getGridX (leadingEdgeX newX e) : ℚ) * TILE_SIZE - entityWidth,
            { e with vx := 0 })) ∧
    (¬ hBlockedCond lvl holes newY newX e →
      horizontalResolve lvl holes newY newX e = (newX, e)) := by
  constructor
  · intro hblk
    obtain ⟨hsol, hesc⟩ := hblk
    unfold hSampleBottom hSampleMiddle hSampleTop leadingEdgeX at hsol hesc
    unfold horizontalResolve
    rw [if_pos hvx]
    dsimp only
    rw [if_pos hsol]
    rw [if_pos (show _ = true by
      simp only [Bool.or_eq_true, Bool.not_eq_true', Bool.and_eq_true,
        bne_iff_ne]
      tauto)]
    unfold leadingEdgeX
    rfl
  · intro hblk
    unfold horizontalResolve
    rw [if_pos hvx]
    dsimp only
    by_cases hsol : (isSolid (getTileAt lvl holes
        (if e.vx < 0 then newX else newX + entityWidth)
        (newY + TILE_SIZE * (1/10))) ||
      isSolid (getTileAt lvl holes
        (if e.vx < 0 then newX else newX + entityWidth)
        (newY + entityHeight * (5/10))) ||
      isSolid (getTileAt lvl holes
        (if e.vx < 0 then newX else newX + entityWidth)
        (newY + entityHeight * (9/10)))) = true
    · by_cases hinner : (!(e.isClimbing || e.isOnRope) ||
          (getTileAt lvl holes (if e.vx < 0 then newX else newX + entityWidth)
              (newY + TILE_SIZE * (1/10)) != LADDER &&
            getTileAt lvl holes
              (if e.vx < 0 then newX else newX + entityWidth)
              (newY + TILE_SIZE * (1/10)) != ROPE &&
            getTileAt lvl holes
              (if e.vx < 0 then newX else newX + entityWidth)
              (newY + entityHeight * (5/10)) != LADDER &&
            getTileAt lvl holes
              (if e.vx < 0 then newX else newX + entityWidth)
              (newY + entityHeight * (5/10)) != ROPE &&
            getTileAt lvl holes
              (if e.vx < 0 then newX else newX + entityWidth)
              (newY + entityHeight * (9/10)) != LADDER &&
            getTileAt lvl holes
              (if e.vx < 0 then newX else newX + entityWidth)
              (newY + entityHeight * (9/10)) != ROPE)) = true
      · exfalso
        apply hblk
        refine ⟨hsol, ?_⟩
        simp only [Bool.or_eq_true, Bool.not_eq_true', Bool.and_eq_true,
          bne_iff_ne] at hinner
        unfold hSampleBottom hSampleMiddle hSampleTop leadingEdgeX
        tauto
      · rw [if_pos hsol, if_neg hinner]
    · rw [if_neg hsol]

/-- Witness for C6 (amended) at concrete inputs: the counterexample
configuration is unblocked (climbing + ladder among the samples), while the
same configuration without climbing is blocked, snapping 8 → 168 − 32 = 8
(already flush) and zeroing vx. -/
theorem horizontalResolve_spec_witness :
    horizontalResolve brickLadderLevel [] 20 8 climbingEntity =
      (8, climbingEntity) ∧
    horizontalResolve brickLadderLevel [] 20 8
        { climbingEntity with isClimbing := false } =
      ((getGridX (leadingEdgeX 8 { climbingEntity with isClimbing := false })
          : ℚ) * TILE_SIZE - entityWidth,
        { { climbingEntity with isClimbing := false } with vx := 0 }) := by
  constructor
  · exact (horizontalResolve_spec brickLadderLevel [] 20 8 climbingEntity
      (by norm_num [climbingEntity])).2
      (by with_unfolding_all decide)
  · have h := (horizontalResolve_spec brickLadderLevel [] 20 8
      { climbingEntity with isClimbing := false }
      (by norm_num [climbingEntity])).1
      (by with_unfolding_all decide)
    rw [h]
    rw [if_neg (by norm_num [climbingEntity])]

/-! ### C2: the hole-decay tick -/

theorem updateDiggingAux_cons_expired {dt : ℚ} {k0 : Int × Int}
    {h0 : DugHole} {rest : HoleMap} {s : DigState}
    (hle : h0.timer - dt ≤ 0) :
    updateDiggingAux dt ((k0, h0) :: rest) s =
      updateDiggingAux dt rest
        (refillAt { h0 with timer := h0.timer - dt } s) := by
  simp only [updateDiggingAux]
  rw [if_pos hle]

theorem updateDiggingAux_cons_kept {dt : ℚ} {k0 : Int × Int} {h0 : DugHole}
    {rest : HoleMap} {s : DigState} (hle : ¬h0.timer - dt ≤ 0) :
    updateDiggingAux dt ((k0, h0) :: rest) s =
      ((k0, { h0 with timer := h0.timer - dt }) ::
          (updateDiggingAux dt rest s).1,
        (updateDiggingAux dt rest s).2) := by
  simp only [updateDiggingAux]
  rw [if_neg hle]

theorem updateDiggingAux_holes (dt : ℚ) (hs : HoleMap) (s : DigState) :
    (updateDiggingAux dt hs s).1 = hs.filterMap fun kh =>
      if kh.2.timer - dt ≤ 0 then none
      else some (kh.1, { kh.2 with timer := kh.2.timer - dt }) := by
  induction hs generalizing s with
  | nil => rfl
  | cons kh rest ih =>
    obtain ⟨k0, h0⟩ := kh
    rw [List.filterMap_cons]
    by_cases hle : h0.timer - dt ≤ 0
    · rw [updateDiggingAux_cons_expired hle, ih]
      simp only [hle, if_pos]
    · rw [updateDiggingAux_cons_kept hle]
      simp only [hle, if_neg, if_false]
      rw [ih s]

theorem refillAt_player_not_trapped {h : DugHole} {s : DigState}
    (hp : s.player.isTrapped = false) : (refillAt h s).player = s.player := by
  unfold refillAt
  split
  · dsimp only
    have hcond : ¬(s.player.isTrapped = true ∧
        getGridX (s.player.x + TILE_SIZE * (4/10)) = h.gridX ∧
        getGridY s.player.y = h.gridY) := by
      rintro ⟨hc1, -, -⟩
      rw [hp] at hc1
      exact Bool.false_ne_true hc1
    rw [if_neg hcond]
  · rfl

theorem refillAt_enemies_get {h : DugHole} {s : DigState} {j : Nat}
    {en : Entity} (hj : s.enemies.get? j = some en)
    (hskip : en.isAlive = false ∨
      ¬(getGridX (en.x + TILE_SIZE * (4/10)) = h.gridX ∧
        getGridY en.y = h.gridY)) :
    (refillAt h s).enemies.get? j = some en := by
  unfold refillAt
  split
  · dsimp only
    rw [List.get?_map, hj, Option.map_some']
    rw [if_neg]
    rintro ⟨ha, ht, hx, hy⟩
    rcases hskip with hdead | hcell
    · rw [hdead] at ha
      exact Bool.false_ne_true ha
    · exact hcell ⟨hx, hy⟩
  · exact hj

theorem refillAt_level_other {h : DugHole} {s : DigState} {y x : Int}
    (hne : ¬(h.gridX = x ∧ h.gridY = y)) :
    (refillAt h s).level y x = s.level y x := by
  unfold refillAt
  split
  · dsimp only
    unfold updLevel
    rw [if_neg (by rintro ⟨hy, hx⟩; exact hne ⟨hx.symm, hy.symm⟩)]
  · rfl

theorem updateDiggingAux_player_stable (dt : ℚ) (hs : HoleMap) (s : DigState)
    (hp : s.player.isTrapped = false) :
    (updateDiggingAux dt hs s).2.player = s.player := by
  induction hs generalizing s with
  | nil => rfl
  | cons kh rest ih =>
    obtain ⟨k0, h0⟩ := kh
    by_cases hle : h0.timer - dt ≤ 0
    · rw [updateDiggingAux_cons_expired hle]
      have h1 := refillAt_player_not_trapped
        (h := { h0 with timer := h0.timer - dt }) (s := s) hp
      rw [ih _ (by rw [h1, hp]), h1]
    · rw [updateDiggingAux_cons_kept hle]
      exact ih s hp

theorem updateDiggingAux_enemy_stable (dt : ℚ) (hs : HoleMap) (s : DigState)
    {j : Nat} {en : Entity} (hj : s.enemies.get? j = some en)
    (hdead : en.isAlive = false) :
    (updateDiggingAux dt hs s).2.enemies.get? j = some en := by
  induction hs generalizing s with
  | nil => exact hj
  | cons kh rest ih =>
    obtain ⟨k0, h0⟩ := kh
    by_cases hle : h0.timer - dt ≤ 0
    · rw [updateDiggingAux_cons_expired hle]
      exact ih _ (refillAt_enemies_get hj (Or.inl hdead))
    · rw [updateDiggingAux_cons_kept hle]
      exact ih s hj

theorem updateDiggingAux_level_other (dt : ℚ) (hs : HoleMap) (s : DigState)
    {y x : Int} (hoth : ∀ kh ∈ hs, ¬(kh.2.gridX = x ∧ kh.2.gridY = y)) :
    (updateDiggingAux dt hs s).2.level y x = s.level y x := by
  induction hs generalizing s with
  | nil => rfl
  | cons kh rest ih =>
    obtain ⟨k0, h0⟩ := kh
    by_cases hle : h0.timer - dt ≤ 0
    · rw [updateDiggingAux_cons_expired hle]
      rw [ih _ fun kh hm => hoth kh (List.mem_cons_of_mem _ hm)]
      exact refillAt_level_other (hoth (k0, h0) (List.mem_cons_self _ _))
    · rw [updateDiggingAux_cons_kept hle]
      exact ih s fun kh hm => hoth kh (List.mem_cons_of_mem _ hm)

theorem findHole_eq_none_of_forall {hs : HoleMap} {k : Int × Int}
    (hall : ∀ kh ∈ hs, kh.1 ≠ k) : findHole hs k = none := by
  induction hs with
  | nil => rfl
  | cons kh rest ih =>
    show (if kh.1 = k then some kh.2 else findHole rest k) = none
    rw [if_neg (hall kh (List.mem_cons_self _ _)),
      ih fun kh' hm => hall kh' (List.mem_cons_of_mem _ hm)]

theorem refillAt_level_self {h : DugHole} {s : DigState}
    (hb : 0 ≤ h.gridX ∧ h.gridX < GRID_WIDTH ∧ 0 ≤ h.gridY ∧
      h.gridY < GRID_HEIGHT) :
    (refillAt h s).level h.gridY h.gridX = h.originalType := by
  unfold refillAt
  rw [if_pos hb]
  dsimp only
  unfold updLevel
  rw [if_pos ⟨rfl, rfl⟩]

/-- The enemy record produced by `killEnemy` on a live enemy: dead, no
longer trapped, respawn timer at the fixed 3-second delay, velocity
zeroed. -/
def killedEnemy (en : Entity) : Entity :=
  { en with
    isAlive := false
    isTrapped := false
    respawnTimer := ENEMY_RESPAWN_DELAY
    vx := 0
    vy := 0 }

theorem refillAt_enemies_kill {h : DugHole} {s : DigState} {j : Nat}
    {en : Entity}
    (hb : 0 ≤ h.gridX ∧ h.gridX < GRID_WIDTH ∧ 0 ≤ h.gridY ∧
      h.gridY < GRID_HEIGHT)
    (hj : s.enemies.get? j = some en) (halive : en.isAlive = true)
    (htrap : en.isTrapped = true)
    (hcx : getGridX (en.x + TILE_SIZE * (4/10)) = h.gridX)
    (hcy : getGridY en.y = h.gridY) :
    (refillAt h s).enemies.get? j = some (killedEnemy en) := by
  unfold refillAt
  rw [if_pos hb]
  dsimp only
  rw [List.get?_map, hj, Option.map_some']
  rw [if_pos ⟨halive, htrap, hcx, hcy⟩]
  unfold killEnemy
  rw [if_neg (by rw [halive]; simp)]
  rfl

theorem refillAt_player_free {h : DugHole} {s : DigState}
    (hb : 0 ≤ h.gridX ∧ h.gridX < GRID_WIDTH ∧ 0 ≤ h.gridY ∧
      h.gridY < GRID_HEIGHT)
    (htrap : s.player.isTrapped = true)
    (hcx : getGridX (s.player.x + TILE_SIZE * (4/10)) = h.gridX)
    (hcy : getGridY s.player.y = h.gridY) :
    (refillAt h s).player = freePlayer s.player := by
  unfold refillAt
  rw [if_pos hb]
  dsimp only
  rw [if_pos ⟨htrap, hcx, hcy⟩]

theorem refillAt_player_other {h : DugHole} {s : DigState}
    (hne : ¬(getGridX (s.player.x + TILE_SIZE * (4/10)) = h.gridX ∧
      getGridY s.player.y = h.gridY)) :
    (refillAt h s).player = s.player := by
  unfold refillAt
  split
  · dsimp only
    rw [if_neg (by rintro ⟨-, hcx, hcy⟩; exact hne ⟨hcx, hcy⟩)]
  · rfl

/-- C2.  The hole-decay tick: every registry entry's remaining time drops by
dt; entries still positive are kept (exactly those), while an entry
reaching ≤ 0 is removed in the same tick, its grid cell is restored to the
stored original kind (BRICK), a live trapped enemy at that cell is killed
into the respawn flow with the fixed 3-second delay, and a trapped player
at that cell is freed with the 5-unit upward nudge and falling set.  The
well-formedness hypotheses (distinct cells and keys, stored cell in bounds)
are the registry invariants `digHole` maintains. -/
theorem updateDigging_spec (dt : ℚ) :
    (∀ (hs : HoleMap) (s : DigState),
      (updateDiggingAux dt hs s).1 = hs.filterMap fun kh =>
        if kh.2.timer - dt ≤ 0 then none
        else some (kh.1, { kh.2 with timer := kh.2.timer - dt })) ∧
    (∀ (hs : HoleMap) (s : DigState) (k : Int × Int) (h : DugHole),
      (k, h) ∈ hs →
      (hs.map fun kh => (kh.2.gridX, kh.2.gridY)).Nodup →
      (hs.map Prod.fst).Nodup →
      h.timer - dt ≤ 0 →
      (0 ≤ h.gridX ∧ h.gridX < GRID_WIDTH ∧ 0 ≤ h.gridY ∧
        h.gridY < GRID_HEIGHT) →
      findHole (updateDiggingAux dt hs s).1 k = none ∧
      (h.originalType = BRICK →
        (updateDiggingAux dt hs s).2.level h.gridY h.gridX = BRICK) ∧
      (∀ (j : Nat) (en : Entity), s.enemies.get? j = some en →
        en.isAlive = true → en.isTrapped = true →
        getGridX (en.x + TILE_SIZE * (4/10)) = h.gridX →
        getGridY en.y = h.gridY →
        (updateDiggingAux dt hs s).2.enemies.get? j =
          some (killedEnemy en)) ∧
      (s.player.isTrapped = true →
        getGridX (s.player.x + TILE_SIZE * (4/10)) = h.gridX →
        getGridY s.player.y = h.gridY →
        (updateDiggingAux dt hs s).2.player = freePlayer s.player)) := by
  constructor
  · exact updateDiggingAux_holes dt
  · intro hs
    induction hs with
    | nil =>
      intro s k h hmem
      exact absurd hmem (List.not_mem_nil _)
    | cons kh0 rest ih =>
      intro s k h hmem hcells hkeys hexp hb
      obtain ⟨k0, h0⟩ := kh0
      have hcells' := List.nodup_cons.mp hcells
      have hkeys' := List.nodup_cons.mp hkeys
      rcases List.mem_cons.mp hmem with heq | htl
      · -- the head entry is the expired one
        obtain ⟨hk, hh⟩ := Prod.mk.injEq .. |>.mp heq
        subst hk
        subst hh
        rw [updateDiggingAux_cons_expired hexp]
        refine ⟨?_, ?_, ?_, ?_⟩
        · apply findHole_eq_none_of_forall
          intro kh hmr
          rw [updateDiggingAux_holes] at hmr
          obtain ⟨kh0, hkh0, hf⟩ := List.mem_filterMap.mp hmr
          intro hkk
          have hsamekey : kh.1 = kh0.1 := by
            by_cases hle : kh0.2.timer - dt ≤ 0
            · rw [if_pos hle] at hf
              exact absurd hf (Option.noConfusion)
            · rw [if_neg hle] at hf
              cases hf
              rfl
          have h2 : kh0.1 ∈ List.map Prod.fst rest :=
            List.mem_map_of_mem Prod.fst hkh0
          rw [hsamekey] at hkk
          rw [hkk] at h2
          exact hkeys'.1 h2
        · intro hbr
          have hoth : ∀ kh ∈ rest,
              ¬(kh.2.gridX = h.gridX ∧ kh.2.gridY = h.gridY) := by
            intro kh hmr hcc
            apply hcells'.1
            have hmm : (kh.2.gridX, kh.2.gridY) ∈
                List.map (fun kh => (kh.2.gridX, kh.2.gridY)) rest :=
              List.mem_map_of_mem _ hmr
            rw [hcc.1, hcc.2] at hmm
            exact hmm
          rw [updateDiggingAux_level_other dt rest _ hoth]
          have hself := refillAt_level_self
            (h := { h with timer := h.timer - dt }) (s := s) hb
          rw [hself]
          exact hbr
        · intro j en hj halive htrap hcx hcy
          exact updateDiggingAux_enemy_stable dt rest _
            (refillAt_enemies_kill hb hj halive htrap hcx hcy) rfl
        · intro htrap hcx hcy
          have h1 := refillAt_player_free (h := { h with timer := h.timer - dt })
            (s := s) hb htrap hcx hcy
          rw [updateDiggingAux_player_stable dt rest _ (by rw [h1]; rfl), h1]
      · -- the expired entry sits in the tail
        have hcelldiff : (h0.gridX, h0.gridY) ≠ (h.gridX, h.gridY) := by
          intro hcc
          apply hcells'.1
          have hmm : (h.gridX, h.gridY) ∈
              List.map (fun kh => (kh.2.gridX, kh.2.gridY)) rest :=
            List.mem_map_of_mem _ htl
          rw [← hcc] at hmm
          exact hmm
        by_cases hle0 : h0.timer - dt ≤ 0
        · rw [updateDiggingAux_cons_expired hle0]
          have ihr := ih (refillAt { h0 with timer := h0.timer - dt } s) k h
            htl hcells'.2 hkeys'.2 hexp hb
          refine ⟨ihr.1, ihr.2.1, ?_, ?_⟩
          · intro j en hj halive htrap hcx hcy
            have hj' : (refillAt { h0 with timer := h0.timer - dt }
                s).enemies.get? j = some en :=
              refillAt_enemies_get hj (Or.inr (by
                rintro ⟨hcx', hcy'⟩
                exact hcelldiff (by
                  rw [show ({ h0 with timer := h0.timer - dt } :
                    DugHole).gridX = h0.gridX from rfl] at hcx'
                  rw [show ({ h0 with timer := h0.timer - dt } :
                    DugHole).gridY = h0.gridY from rfl] at hcy'
                  rw [← hcx', ← hcy', hcx, hcy])))
            exact ihr.2.2.1 j en hj' halive htrap hcx hcy
          · intro htrap hcx hcy
            have hp' : (refillAt { h0 with timer := h0.timer - dt }
                s).player = s.player :=
              refillAt_player_other (by
                rintro ⟨hcx', hcy'⟩
                exact hcelldiff (by
                  rw [show ({ h0 with timer := h0.timer - dt } :
                    DugHole).gridX = h0.gridX from rfl] at hcx'
                  rw [show ({ h0 with timer := h0.timer - dt } :
                    DugHole).gridY = h0.gridY from rfl] at hcy'
                  rw [← hcx', ← hcy', hcx, hcy]))
            have := ihr.2.2.2 (by rw [hp', htrap]) (by rw [hp']; exact hcx)
              (by rw [hp']; exact hcy)
            rw [this, hp']
        · rw [updateDiggingAux_cons_kept hle0]
          have ihr := ih s k h htl hcells'.2 hkeys'.2 hexp hb
          have hkdiff : k0 ≠ k := by
            intro hkk
            apply hkeys'.1
            have hmm : k ∈ List.map Prod.fst rest :=
              List.mem_map_of_mem Prod.fst htl
            rw [hkk]
            exact hmm
          refine ⟨?_, ihr.2.1, ihr.2.2.1, ihr.2.2.2⟩
          show (if k0 = k then _ else findHole (updateDiggingAux dt rest
            s).1 k) = none
          rw [if_neg hkdiff, ihr.1]

/-- A hole entry at (1, 2) about to expire. -/
def expiringHole : DugHole := { witnessHole with timer := 1/100 }

/-- Digging-tick state: the player and one live enemy both trapped in the
hole cell (1, 2) of the initial level. -/
def witnessDigState : DigState :=
  { level := initialLevel, player := trappedEntity,
    enemies := [trappedEntity] }

/-- Witness for C2 at concrete inputs: after a 0.1-second tick the expiring
entry at (1, 2) is gone (the registry empties), the grid cell reads BRICK,
the trapped enemy is dead with the 3-second respawn timer, and the trapped
player is freed, nudged up 5 units and falling. -/
theorem updateDigging_spec_witness :
    (updateDiggingAux (1/10) [((1, 2), expiringHole)] witnessDigState).1 =
      [] ∧
    findHole (updateDiggingAux (1/10) [((1, 2), expiringHole)]
      witnessDigState).1 (1, 2) = none ∧
    (updateDiggingAux (1/10) [((1, 2), expiringHole)]
      witnessDigState).2.level 2 1 = BRICK ∧
    (updateDiggingAux (1/10) [((1, 2), expiringHole)]
      witnessDigState).2.enemies.get? 0 = some (killedEnemy trappedEntity) ∧
    (updateDiggingAux (1/10) [((1, 2), expiringHole)]
      witnessDigState).2.player = freePlayer trappedEntity := by
  have hmain := (updateDigging_spec (1/10)).2 [((1, 2), expiringHole)]
    witnessDigState (1, 2) expiringHole (List.mem_cons_self _ _)
    (by simp) (by simp) (by norm_num [expiringHole, witnessHole])
    (by constructor
        · with_unfolding_all decide
        · constructor
          · with_unfolding_all decide
          · constructor
            · with_unfolding_all decide
            · with_unfolding_all decide)
  have hfm := (updateDigging_spec (1/10)).1 [((1, 2), expiringHole)]
    witnessDigState
  refine ⟨?_, hmain.1, ?_, ?_, ?_⟩
  · rw [hfm]
    with_unfolding_all decide
  · exact hmain.2.1 rfl
  · exact hmain.2.2.1 0 trappedEntity rfl rfl rfl
      (by with_unfolding_all decide) (by with_unfolding_all decide)
  · exact hmain.2.2.2 rfl (by with_unfolding_all decide)
      (by with_unfolding_all decide)

/-! ### C5: grid mutation after level load -/

theorem refillAt_level_change {h : DugHole} {s : DigState} {y x : Int}
    (hch : (refillAt h s).level y x ≠ s.level y x) :
    h.gridX = x ∧ h.gridY = y ∧ (refillAt h s).level y x = h.originalType := by
  by_cases hc : h.gridX = x ∧ h.gridY = y
  · refine ⟨hc.1, hc.2, ?_⟩
    unfold refillAt at hch ⊢
    split at hch
    · rename_i hbnd
      rw [if_pos hbnd]
      dsimp only at hch ⊢
      unfold updLevel at hch ⊢
      rw [if_pos ⟨hc.2.symm, hc.1.symm⟩]
    · exact absurd rfl hch
  · exact absurd (refillAt_level_other hc) hch

theorem updateDiggingAux_level_change (dt : ℚ) (hs : HoleMap) (s : DigState)
    {y x : Int} (hbr : ∀ kh ∈ hs, kh.2.originalType = BRICK)
    (hch : (updateDiggingAux dt hs s).2.level y x ≠ s.level y x) :
    (updateDiggingAux dt hs s).2.level y x = BRICK ∧
    ∃ kh ∈ hs, kh.2.timer - dt ≤ 0 ∧ kh.2.gridX = x ∧ kh.2.gridY = y := by
  induction hs generalizing s with
  | nil => exact absurd rfl hch
  | cons kh0 rest ih =>
    obtain ⟨k0, h0⟩ := kh0
    by_cases hle : h0.timer - dt ≤ 0
    · rw [updateDiggingAux_cons_expired hle] at hch ⊢
      by_cases hres : (updateDiggingAux dt rest
          (refillAt { h0 with timer := h0.timer - dt } s)).2.level y x =
          (refillAt { h0 with timer := h0.timer - dt } s).level y x
      · have hch' : (refillAt { h0 with timer := h0.timer - dt }
            s).level y x ≠ s.level y x := by
          intro heq
          exact hch (by rw [hres, heq])
        obtain ⟨hgx, hgy, hval⟩ := refillAt_level_change hch'
        refine ⟨?_, (k0, h0), List.mem_cons_self _ _, hle, hgx, hgy⟩
        rw [hres, hval]
        exact hbr (k0, h0) (List.mem_cons_self _ _)
      · obtain ⟨hb2, kh, hm, hrest⟩ := ih _
          (fun kh hm => hbr kh (List.mem_cons_of_mem _ hm)) hres
        exact ⟨hb2, kh, List.mem_cons_of_mem _ hm, hrest⟩
    · rw [updateDiggingAux_cons_kept hle] at hch ⊢
      obtain ⟨hb2, kh, hm, hrest⟩ := ih s
        (fun kh hm => hbr kh (List.mem_cons_of_mem _ hm)) hch
      exact ⟨hb2, kh, List.mem_cons_of_mem _ hm, hrest⟩

theorem revealScanGo_change {xs : List Int} {lvl : Level} {y x : Int}
    (hnd : xs.Nodup)
    (hch : revealScanGo xs lvl y x ≠ lvl y x) :
    y = GRID_HEIGHT - 1 ∧ revealScanGo xs lvl y x = EXIT_LADDER ∧
    (lvl (GRID_HEIGHT - 1) x = EMPTY ∨ lvl (GRID_HEIGHT - 1) x = LADDER) ∧
    x ∈ xs := by
  induction xs generalizing lvl with
  | nil => exact absurd rfl hch
  | cons x0 rest ih =>
    have hnd' := List.nodup_cons.mp hnd
    by_cases hcond : lvl (GRID_HEIGHT - 2) x0 = LADDER ∧
        (lvl (GRID_HEIGHT - 1) x0 = EMPTY ∨ lvl (GRID_HEIGHT - 1) x0 = LADDER)
    · -- the head column writes
      have hstep : revealScanGo (x0 :: rest) lvl =
          revealScanGo rest (updLevel lvl (GRID_HEIGHT - 1) x0 EXIT_LADDER) := by
        show (let lvl' := _; revealScanGo rest lvl') = _
        rw [show (if lvl (GRID_HEIGHT - 2) x0 = LADDER ∧
            (lvl (GRID_HEIGHT - 1) x0 = EMPTY ∨
              lvl (GRID_HEIGHT - 1) x0 = LADDER) then
            updLevel lvl (GRID_HEIGHT - 1) x0 EXIT_LADDER else lvl) =
          updLevel lvl (GRID_HEIGHT - 1) x0 EXIT_LADDER from if_pos hcond]
      rw [hstep] at hch ⊢
      by_cases hch' : revealScanGo rest
          (updLevel lvl (GRID_HEIGHT - 1) x0 EXIT_LADDER) y x =
          updLevel lvl (GRID_HEIGHT - 1) x0 EXIT_LADDER y x
      · -- the change came from the head write itself
        have hupd : updLevel lvl (GRID_HEIGHT - 1) x0 EXIT_LADDER y x ≠
            lvl y x := by
          intro heq
          exact hch (by rw [hch', heq])
        have hyx : y = GRID_HEIGHT - 1 ∧ x = x0 := by
          by_contra hn
          apply hupd
          unfold updLevel
          rw [if_neg hn]
        refine ⟨hyx.1, ?_, ?_, by rw [hyx.2]; exact List.mem_cons_self _ _⟩
        · rw [hch']
          unfold updLevel
          rw [if_pos hyx]
        · rw [hyx.2]
          exact hcond.2
      · -- the change came from the tail scan
        obtain ⟨hy, hval, hold, hxm⟩ := ih hnd'.2 hch'
        have hxne : x ≠ x0 := fun heq => hnd'.1 (heq ▸ hxm)
        refine ⟨hy, hval, ?_, List.mem_cons_of_mem _ hxm⟩
        have : updLevel lvl (GRID_HEIGHT - 1) x0 EXIT_LADDER
            (GRID_HEIGHT - 1) x = lvl (GRID_HEIGHT - 1) x := by
          unfold updLevel
          rw [if_neg (by rintro ⟨-, hxx⟩; exact hxne hxx)]
        rw [this] at hold
        exact hold
    · have hstep : revealScanGo (x0 :: rest) lvl = revealScanGo rest lvl := by
        show (let lvl' := _; revealScanGo rest lvl') = _
        rw [show (if lvl (GRID_HEIGHT - 2) x0 = LADDER ∧
            (lvl (GRID_HEIGHT - 1) x0 = EMPTY ∨
              lvl (GRID_HEIGHT - 1) x0 = LADDER) then
            updLevel lvl (GRID_HEIGHT - 1) x0 EXIT_LADDER else lvl) = lvl
          from if_neg hcond]
      rw [hstep] at hch ⊢
      obtain ⟨hy, hval, hold, hxm⟩ := ih hnd'.2 hch
      exact ⟨hy, hval, hold, List.mem_cons_of_mem _ hxm⟩

theorem revealExitLadder_change {lvl : Level} {y x : Int}
    (hch : revealExitLadder lvl y x ≠ lvl y x) :
    y = GRID_HEIGHT - 1 ∧ revealExitLadder lvl y x = EXIT_LADDER ∧
    (lvl (GRID_HEIGHT - 1) x = EMPTY ∨ lvl (GRID_HEIGHT - 1) x = LADDER ∨
      x = GRID_WIDTH / 2) := by
  have hnd : gridXs.Nodup := by decide
  unfold revealExitLadder at hch ⊢
  by_cases hscan : revealScanGo gridXs lvl y x = lvl y x
  · -- the change came from the fallback write at the top center
    dsimp only at hch ⊢
    split at hch
    · split at hch
      · rename_i hfe hbelow
        have hyx : y = GRID_HEIGHT - 1 ∧ x = GRID_WIDTH / 2 := by
          by_contra hn
          apply hch
          rw [show updLevel (revealScanGo gridXs lvl) (GRID_HEIGHT - 1)
            (GRID_WIDTH / 2) EXIT_LADDER y x =
            revealScanGo gridXs lvl y x from by
              unfold updLevel; rw [if_neg hn]]
          exact hscan
        rw [if_pos hfe, if_pos hbelow]
        refine ⟨hyx.1, ?_, Or.inr (Or.inr hyx.2)⟩
        unfold updLevel
        rw [if_pos hyx]
      · exact absurd hscan hch
    · exact absurd hscan hch
  · -- the change came from the scan; an exit was revealed so no fallback
    obtain ⟨hy, hval, hold, hxm⟩ := revealScanGo_change hnd hscan
    have hfound : (gridXs.any fun x =>
        revealScanGo gridXs lvl (GRID_HEIGHT - 1) x == EXIT_LADDER) = true := by
      rw [List.any_eq_true]
      exact ⟨x, hxm, by rw [hy] at hval; rw [hval]; rfl⟩
    dsimp only at hch ⊢
    rw [if_neg (by rw [hfound]; simp)] at hch ⊢
    exact ⟨hy, hval, hold.imp_right Or.inl⟩

/-- The initial state with all collectibles collected (the win condition
about to trigger). -/
def winState : GameState :=
  { initialState (fun _ => true) with
    collectiblesCollected := initialTotalCollectibles }

/-- Counterexample to C5 as stated.  In the compiled level, triggering the
win condition does fire the exit-ladder reveal exactly once — but the main
scan finds no LADDER below the top row, so the fallback overwrites the
top-center cell (x = 10, y = 14), which stores SOLID_BRICK, with
EXIT_LADDER.  The claim allows only Empty→ExitLadder changes. -/
theorem exit_reveal_counterexample :
    winState.levelComplete = false ∧
    winState.collectiblesCollected = winState.totalCollectibles ∧
    winState.totalCollectibles > 0 ∧
    winState.level 14 10 = SOLID_BRICK ∧
    (checkLevelCompletionS winState).levelComplete = true ∧
    (checkLevelCompletionS winState).level 14 10 = EXIT_LADDER := by
  refine ⟨rfl, rfl, ?_, ?_, ?_, ?_⟩ <;> with_unfolding_all decide

/-- C5 (amended).  After level load the grid is mutated in exactly two
ways: (a) a hole refill writes back the stored original kind — Brick — at
the refilled cell (every grid change made by the digging tick is such a
write); (b) the exit-ladder reveal, triggered at most once by the win
condition (all collectibles collected with positive total, level-complete
set exactly then and never reset), changes only top-row cells to
ExitLadder — cells that were Empty or Ladder in the scan, or the top-center
cell whatever its stored kind in the fallback. -/
theorem level_mutation_spec :
    (∀ (dt : ℚ) (hs : HoleMap) (s : DigState) (y x : Int),
      (∀ kh ∈ hs, kh.2.originalType = BRICK) →
      (updateDiggingAux dt hs s).2.level y x ≠ s.level y x →
      (updateDiggingAux dt hs s).2.level y x = BRICK) ∧
    (∀ (lvl : Level) (y x : Int),
      revealExitLadder lvl y x ≠ lvl y x →
      y = GRID_HEIGHT - 1 ∧ revealExitLadder lvl y x = EXIT_LADDER ∧
        (lvl (GRID_HEIGHT - 1) x = EMPTY ∨ lvl (GRID_HEIGHT - 1) x = LADDER ∨
          x = GRID_WIDTH / 2)) ∧
    (∀ st : GameState,
      (st.levelComplete = true → checkLevelCompletionS st = st) ∧
      ((checkLevelCompletionS st).levelComplete = true ↔
        st.levelComplete = true ∨
          (st.collectiblesCollected ≥ st.totalCollectibles ∧
            st.totalCollectibles > 0)) ∧
      (st.levelComplete = false →
        st.collectiblesCollected ≥ st.totalCollectibles →
        st.totalCollectibles > 0 →
        (checkLevelCompletionS st).level = revealExitLadder st.level)) := by
  refine ⟨?_, ?_, ?_⟩
  · intro dt hs s y x hbr hch
    exact (updateDiggingAux_level_change dt hs s hbr hch).1
  · intro lvl y x hch
    exact revealExitLadder_change hch
  · intro st
    refine ⟨?_, ?_, ?_⟩
    · intro hlc
      unfold checkLevelCompletionS
      rw [if_neg (by rintro ⟨hn, -, -⟩; exact hn hlc)]
    · unfold checkLevelCompletionS
      split
      · rename_i hcond
        simp only [true_iff]
        exact Or.inr ⟨hcond.2.1, hcond.2.2⟩
      · rename_i hcond
        constructor
        · exact Or.inl
        · intro hca
          rcases hca with h1 | h2
          · exact h1
          · by_cases hlc : st.levelComplete = true
            · exact hlc
            · exact absurd ⟨fun hc => hlc hc, h2.1, h2.2⟩ hcond
    · intro hlc hge hpos
      unfold checkLevelCompletionS
      rw [if_pos ⟨fun hc => by rw [hlc] at hc; exact Bool.false_ne_true hc,
        hge, hpos⟩]

/-- Witness for C5 (amended) at concrete inputs: a refill that changes a
grid cell writes BRICK there; the fallback reveal on the initial level
changes (14, 10), hitting the top-center disjunct; a completed level is
left untouched by `checkLevelCompletion`; and the win state triggers the
reveal. -/
theorem level_mutation_spec_witness :
    (updateDiggingAux (1/10) [((1, 2), expiringHole)]
      witnessDigState).2.level 2 1 = BRICK ∧
    (revealExitLadder initialLevel 14 10 = EXIT_LADDER ∧
      (initialLevel 14 10 = EMPTY ∨ initialLevel 14 10 = LADDER ∨
        (10 : Int) = GRID_WIDTH / 2)) ∧
    checkLevelCompletionS { winState with levelComplete := true } =
      { winState with levelComplete := true } ∧
    (checkLevelCompletionS winState).level =
      revealExitLadder winState.level := by
  refine ⟨?_, ?_, ?_, ?_⟩
  · have hbr : ∀ kh ∈ ([((1, 2), expiringHole)] : HoleMap),
        kh.2.originalType = BRICK := by
      intro kh hm
      rw [List.mem_singleton] at hm
      rw [hm]
      rfl
    exact level_mutation_spec.1 (1/10) [((1, 2), expiringHole)]
      witnessDigState 2 1 hbr (by with_unfolding_all decide)
  · have h := level_mutation_spec.2.1 initialLevel 14 10
      (by with_unfolding_all decide)
    exact ⟨h.2.1, h.2.2⟩
  · exact (level_mutation_spec.2.2 { winState with levelComplete := true }).1
      rfl
  · exact (level_mutation_spec.2.2 winState).2.2 rfl (le_refl _)
      (by with_unfolding_all decide)

/-! ### C7: flag exclusion invariants -/

theorem gravityStep_flags (dt : ℚ) (e : Entity) :
    (gravityStep dt e).isTrapped = e.isTrapped ∧
    (gravityStep dt e).isClimbing = e.isClimbing ∧
    (gravityStep dt e).isOnRope = e.isOnRope ∧
    (gravityStep dt e).isFalling = e.isFalling := by
  unfold gravityStep
  split <;> exact ⟨rfl, rfl, rfl, rfl⟩

theorem verticalResolve_flags (lvl : Level) (holes : HoleMap)
    (others : List Entity) (isPlayer : Bool) (oldY newX newY : ℚ)
    (e : Entity) :
    (verticalResolve lvl holes others isPlayer oldY newX newY e).2.isTrapped =
      e.isTrapped ∧
    (verticalResolve lvl holes others isPlayer oldY newX newY
      e).2.isClimbing = e.isClimbing ∧
    (verticalResolve lvl holes others isPlayer oldY newX newY e).2.isOnRope =
      e.isOnRope := by
  unfold verticalResolve
  repeat' first | apply And.intro | split
  all_goals simp [apply_ite]

theorem horizontalResolve_flags (lvl : Level) (holes : HoleMap)
    (newY newX : ℚ) (e : Entity) :
    (horizontalResolve lvl holes newY newX e).2.isTrapped = e.isTrapped ∧
    (horizontalResolve lvl holes newY newX e).2.isClimbing = e.isClimbing ∧
    (horizontalResolve lvl holes newY newX e).2.isOnRope = e.isOnRope ∧
    (horizontalResolve lvl holes newY newX e).2.isFalling = e.isFalling := by
  unfold horizontalResolve
  repeat' first | apply And.intro | split
  all_goals simp [apply_ite]

theorem moveStep_flags (lvl : Level) (holes : HoleMap)
    (others : List Entity) (isPlayer : Bool) (dt : ℚ) (e : Entity) :
    (moveStep lvl holes others isPlayer dt e).isTrapped = e.isTrapped ∧
    (moveStep lvl holes others isPlayer dt e).isClimbing = e.isClimbing ∧
    (moveStep lvl holes others isPlayer dt e).isOnRope = e.isOnRope := by
  unfold moveStep
  dsimp only
  refine ⟨?_, ?_, ?_⟩
  · rw [(horizontalResolve_flags _ _ _ _ _).1,
      (verticalResolve_flags _ _ _ _ _ _ _ _).1, (gravityStep_flags dt e).1]
  · rw [(horizontalResolve_flags _ _ _ _ _).2.1,
      (verticalResolve_flags _ _ _ _ _ _ _ _).2.1,
      (gravityStep_flags dt e).2.1]
  · rw [(horizontalResolve_flags _ _ _ _ _).2.2.1,
      (verticalResolve_flags _ _ _ _ _ _ _ _).2.2,
      (gravityStep_flags dt e).2.2.1]

theorem boundaryStep_flags (isPlayer : Bool) (lives : Int) (gameOver : Bool)
    (e : Entity) :
    ((boundaryStep isPlayer lives gameOver e).1.isTrapped = e.isTrapped ∨
      (boundaryStep isPlayer lives gameOver e).1.isTrapped = false) ∧
    (boundaryStep isPlayer lives gameOver e).1.isClimbing = e.isClimbing ∧
    (boundaryStep isPlayer lives gameOver e).1.isOnRope = e.isOnRope := by
  unfold boundaryStep killEnemy
  dsimp only
  repeat' first | apply And.intro | split
  all_goals simp [apply_ite]

theorem trappedStep_exclusions (holes : HoleMap) (isPlayer : Bool) (dt : ℚ)
    (e : Entity) (h1 : ¬(e.isTrapped = true ∧ e.isFalling = true))
    (h2 : ¬(e.isClimbing = true ∧ e.isOnRope = true)) :
    ¬((trappedStep holes isPlayer dt e).isTrapped = true ∧
      (trappedStep holes isPlayer dt e).isFalling = true) ∧
    ¬((trappedStep holes isPlayer dt e).isClimbing = true ∧
      (trappedStep holes isPlayer dt e).isOnRope = true) := by
  unfold trappedStep killEnemy
  dsimp only
  by_cases htle : e.trappedTimer - dt ≤ 0
  · rw [if_pos htle]
    split
    · by_cases hp : isPlayer = true
      · rw [if_neg (by simp [hp])]
        exact ⟨by simp, h2⟩
      · rw [if_pos (by simp [Bool.not_eq_true] at hp; simp [hp])]
        split
        · exact ⟨h1, h2⟩
        · exact ⟨by simp, h2⟩
    · exact ⟨h1, h2⟩
  · rw [if_neg htle]
    exact ⟨h1, h2⟩

theorem checkHoleFall_exclusions (lvl : Level) (holes : HoleMap)
    (others : List Entity) (isPlayer : Bool) (e : Entity)
    (htr : e.isTrapped = false)
    (h2 : ¬(e.isClimbing = true ∧ e.isOnRope = true)) :
    ¬((checkHoleFall lvl holes others isPlayer e).isTrapped = true ∧
      (checkHoleFall lvl holes others isPlayer e).isFalling = true) ∧
    ¬((checkHoleFall lvl holes others isPlayer e).isClimbing = true ∧
      (checkHoleFall lvl holes others isPlayer e).isOnRope = true) := by
  unfold checkHoleFall
  dsimp only
  by_cases hrst : e.isFalling = true ∧ e.vy = 0 ∧
      isOnGround lvl holes others e = true
  · rw [if_pos hrst]
    by_cases hbnd : 0 ≤ getGridX (e.x + entityWidth / 2) ∧
        getGridX (e.x + entityWidth / 2) < GRID_WIDTH ∧
        0 ≤ getGridY (e.y + 1) ∧ getGridY (e.y + 1) < GRID_HEIGHT
    · rw [if_pos hbnd]
      split
      · rw [if_neg (by simp)]
        exact ⟨by simp [htr], h2⟩
      · exact ⟨by simp [htr], h2⟩
    · rw [if_neg hbnd]
      exact ⟨by simp [htr], h2⟩
  · rw [if_neg hrst]
    by_cases hbnd : 0 ≤ getGridX (e.x + entityWidth / 2) ∧
        getGridX (e.x + entityWidth / 2) < GRID_WIDTH ∧
        0 ≤ getGridY (e.y + 1) ∧ getGridY (e.y + 1) < GRID_HEIGHT
    · rw [if_pos hbnd]
      split
      · by_cases hcap : e.isFalling = true ∧ ¬e.isTrapped = true
        · rw [if_pos hcap]
          exact ⟨by simp, by simp⟩
        · rw [if_neg hcap]
          exact ⟨by simp [htr], h2⟩
      · exact ⟨by simp [htr], h2⟩
    · rw [if_neg hbnd]
      exact ⟨by simp [htr], h2⟩

theorem updatePhysics_exclusions (lvl : Level) (holes : HoleMap)
    (others : List Entity) (isPlayer : Bool) (lives : Int) (gameOver : Bool)
    (dt : ℚ) (e : Entity)
    (h1 : ¬(e.isTrapped = true ∧ e.isFalling = true))
    (h2 : ¬(e.isClimbing = true ∧ e.isOnRope = true)) :
    ¬((updatePhysics lvl holes others isPlayer lives gameOver dt
        e).1.isTrapped = true ∧
      (updatePhysics lvl holes others isPlayer lives gameOver dt
        e).1.isFalling = true) ∧
    ¬((updatePhysics lvl holes others isPlayer lives gameOver dt
        e).1.isClimbing = true ∧
      (updatePhysics lvl holes others isPlayer lives gameOver dt
        e).1.isOnRope = true) := by
  unfold updatePhysics
  split
  · exact trappedStep_exclusions holes isPlayer dt e h1 h2
  · rename_i hnt
    dsimp only
    have htr0 : e.isTrapped = false := by simpa using hnt
    have hm := moveStep_flags lvl holes others isPlayer dt e
    have hb := boundaryStep_flags isPlayer lives gameOver
      (moveStep lvl holes others isPlayer dt e)
    have htr2 : (boundaryStep isPlayer lives gameOver
        (moveStep lvl holes others isPlayer dt e)).1.isTrapped = false := by
      rcases hb.1 with h | h
      · rw [h, hm.1]
        exact htr0
      · exact h
    have hc2 : ¬((boundaryStep isPlayer lives gameOver
        (moveStep lvl holes others isPlayer dt e)).1.isClimbing = true ∧
        (boundaryStep isPlayer lives gameOver
          (moveStep lvl holes others isPlayer dt e)).1.isOnRope = true) := by
      rw [hb.2.1, hb.2.2, hm.2.1, hm.2.2]
      exact h2
    exact checkHoleFall_exclusions lvl holes others isPlayer _ htr2 hc2

theorem inputHorizontal_isTrapped (keys : Keys) (p : Entity) :
    (inputHorizontal keys p).isTrapped = p.isTrapped := by
  unfold inputHorizontal
  repeat' first | split | dsimp only
  all_goals rfl

theorem inputLadder_spec (onLadder : Bool) (keys : Keys) (p : Entity) :
    (inputLadder onLadder keys p).isTrapped = p.isTrapped ∧
    ¬((inputLadder onLadder keys p).isClimbing = true ∧
      (inputLadder onLadder keys p).isOnRope = true) := by
  unfold inputLadder
  repeat' first | apply And.intro | split
  all_goals simp

theorem inputRopeStop_isTrapped (lvl : Level) (p : Entity) :
    (inputRopeStop lvl p).isTrapped = p.isTrapped := by
  unfold inputRopeStop
  repeat' first | split | dsimp only
  all_goals rfl

theorem inputRopeStop_excl (lvl : Level) (p : Entity)
    (h2 : ¬(p.isClimbing = true ∧ p.isOnRope = true)) :
    ¬((inputRopeStop lvl p).isClimbing = true ∧
      (inputRopeStop lvl p).isOnRope = true) := by
  unfold inputRopeStop
  repeat' first | split | dsimp only
  all_goals simp_all

theorem inputJump_flags (lvl : Level) (holes : HoleMap)
    (enemies : List Entity) (keys : Keys) (p : Entity) :
    (inputJump lvl holes enemies keys p).1.isTrapped = p.isTrapped ∧
    (inputJump lvl holes enemies keys p).1.isClimbing = p.isClimbing ∧
    (inputJump lvl holes enemies keys p).1.isOnRope = p.isOnRope := by
  unfold inputJump
  repeat' first | apply And.intro | split | dsimp only
  all_goals rfl

theorem handleInputMove_flags (lvl : Level) (holes : HoleMap)
    (enemies : List Entity) (keys : Keys) (p : Entity) :
    (handleInputMove lvl holes enemies keys p).1.isTrapped = p.isTrapped ∧
    ¬((handleInputMove lvl holes enemies keys p).1.isClimbing = true ∧
      (handleInputMove lvl holes enemies keys p).1.isOnRope = true) := by
  unfold handleInputMove
  dsimp only
  constructor
  · rw [(inputJump_flags _ _ _ _ _).1, inputRopeStop_isTrapped,
      (inputLadder_spec _ _ _).1, inputHorizontal_isTrapped]
  · have h4 := (inputLadder_spec
      (isOnLadder lvl holes { p with vx := 0 }) keys
      (inputHorizontal keys
        { { p with vx := 0 } with
          isOnRope := checkOnRope lvl holes { p with vx := 0 } })).2
    have h5 := inputRopeStop_excl lvl _ h4
    intro hc
    obtain ⟨hcl, hro⟩ := hc
    rw [(inputJump_flags _ _ _ _ _).2.1] at hcl
    rw [(inputJump_flags _ _ _ _ _).2.2] at hro
    exact h5 ⟨hcl, hro⟩

theorem handleInput_exclusions (lvl : Level) (holes : HoleMap)
    (enemies : List Entity) (gameOver gameWon : Bool) (keys : Keys)
    (p0 : Entity) (h1 : ¬(p0.isTrapped = true ∧ p0.isFalling = true))
    (h2 : ¬(p0.isClimbing = true ∧ p0.isOnRope = true)) :
    ¬((handleInput lvl holes enemies gameOver gameWon keys
        p0).1.isTrapped = true ∧
      (handleInput lvl holes enemies gameOver gameWon keys
        p0).1.isFalling = true) ∧
    ¬((handleInput lvl holes enemies gameOver gameWon keys
        p0).1.isClimbing = true ∧
      (handleInput lvl holes enemies gameOver gameWon keys
        p0).1.isOnRope = true) := by
  have hplayer : ∀ hg : ¬(gameOver || gameWon || p0.isTrapped ||
      !p0.isAlive) = true,
      (handleInput lvl holes enemies gameOver gameWon keys p0).1 =
        (handleInputMove lvl holes enemies keys p0).1 := by
    intro hg
    unfold handleInput
    rw [if_neg hg]
    dsimp only
    repeat' split
    all_goals rfl
  by_cases hg : (gameOver || gameWon || p0.isTrapped || !p0.isAlive) = true
  · unfold handleInput
    rw [if_pos hg]
    exact ⟨h1, h2⟩
  · rw [hplayer hg]
    have hm := handleInputMove_flags lvl holes enemies keys p0
    have htr0 : p0.isTrapped = false := by
      simp only [Bool.or_eq_true, not_or] at hg
      simpa using hg.1.2
    refine ⟨?_, hm.2⟩
    rw [hm.1, htr0]
    simp

/-- The enemy driven into the climbing/on-rope overlap: standing on the rope
cell (4,8) of the compiled level, with the ladder cell (4,9) directly below
its feet and the player below it. -/
def cxEnemy0 : Entity :=
  { x := 164, y := 320, vx := 0, vy := 0, isJumping := false,
    isClimbing := false, isOnRope := false, isFalling := false,
    faceRight := true, isTrapped := false, trappedTimer := 0,
    isAlive := true, respawnTimer := 0, startGridX := 1, startGridY := 2 }

/-- A dead enemy with a long respawn timer (inert for this tick). -/
def cxDeadEnemy : Entity :=
  { x := 40, y := 40, vx := 0, vy := 0, isJumping := false,
    isClimbing := false, isOnRope := false, isFalling := false,
    faceRight := true, isTrapped := false, trappedTimer := 0,
    isAlive := false, respawnTimer := 100, startGridX := 2, startGridY := 2 }

/-- A player positioned 60 world units below the rope enemy, in the same
column, to make the chase AI request downward movement. -/
def cxPlayer : Entity :=
  { x := 164, y := 380, vx := 0, vy := 0, isJumping := false,
    isClimbing := false, isOnRope := false, isFalling := false,
    faceRight := true, isTrapped := false, trappedTimer := 0,
    isAlive := true, respawnTimer := 0, startGridX := 9, startGridY := 2 }

/-- C7 counterexample: the enemy tick breaks the climbing/on-rope exclusion.
`cxEnemy0` enters the tick with both flags false, yet leaves the enemy
update with `isClimbing` and `isOnRope` both true: the AI's vertical-chase
branch sets `isClimbing := true` (ladder reachable below) while its rope
branch independently sets `isOnRope := true` for the rope cell the enemy
occupies, with no cross-reset between the two. -/
theorem climb_rope_counterexample :
    ¬(cxEnemy0.isClimbing = true ∧ cxEnemy0.isOnRope = true) ∧
    ((updateEnemies initialLevel [] false (fun _ => true) (1/100) cxPlayer
        [cxEnemy0, cxDeadEnemy, cxDeadEnemy] 3 false).2.1.get? 0).map
      (fun en => (en.isClimbing, en.isOnRope)) = some (true, true) := by
  constructor
  · decide
  · with_unfolding_all decide

/-- C7 (amended): the input handler and the physics resolver do preserve
both flag exclusions.  For every entity entering with trapped/falling not
both true and climbing/on-rope not both true, `updatePhysics` returns an
entity for which both exclusions still hold, and `handleInput` does the
same for the player; the enemy AI is the sole stage without this
preservation property. -/
theorem flag_exclusions_spec :
    (∀ (lvl : Level) (holes : HoleMap) (others : List Entity)
      (isPlayer : Bool) (lives : Int) (gameOver : Bool) (dt : ℚ)
      (e : Entity),
      ¬(e.isTrapped = true ∧ e.isFalling = true) →
      ¬(e.isClimbing = true ∧ e.isOnRope = true) →
      ¬((updatePhysics lvl holes others isPlayer lives gameOver dt
          e).1.isTrapped = true ∧
        (updatePhysics lvl holes others isPlayer lives gameOver dt
          e).1.isFalling = true) ∧
      ¬((updatePhysics lvl holes others isPlayer lives gameOver dt
          e).1.isClimbing = true ∧
        (updatePhysics lvl holes others isPlayer lives gameOver dt
          e).1.isOnRope = true)) ∧
    (∀ (lvl : Level) (holes : HoleMap) (enemies : List Entity)
      (gameOver gameWon : Bool) (keys : Keys) (p0 : Entity),
      ¬(p0.isTrapped = true ∧ p0.isFalling = true) →
      ¬(p0.isClimbing = true ∧ p0.isOnRope = true) →
      ¬((handleInput lvl holes enemies gameOver gameWon keys
          p0).1.isTrapped = true ∧
        (handleInput lvl holes enemies gameOver gameWon keys
          p0).1.isFalling = true) ∧
      ¬((handleInput lvl holes enemies gameOver gameWon keys
          p0).1.isClimbing = true ∧
        (handleInput lvl holes enemies gameOver gameWon keys
          p0).1.isOnRope = true)) :=
  ⟨fun lvl holes others isPlayer lives gameOver dt e h1 h2 =>
    updatePhysics_exclusions lvl holes others isPlayer lives gameOver dt e
      h1 h2,
   fun lvl holes enemies gameOver gameWon keys p0 h1 h2 =>
    handleInput_exclusions lvl holes enemies gameOver gameWon keys p0 h1 h2⟩

/-- Witness for the C7 theorem at concrete inputs: the fresh player of the
compiled level, pushed through one physics step and one input step. -/
theorem flag_exclusions_spec_witness :
    (¬((updatePhysics initialLevel [] [] true 3 false (1/100)
        initialPlayer).1.isTrapped = true ∧
      (updatePhysics initialLevel [] [] true 3 false (1/100)
        initialPlayer).1.isFalling = true) ∧
    ¬((updatePhysics initialLevel [] [] true 3 false (1/100)
        initialPlayer).1.isClimbing = true ∧
      (updatePhysics initialLevel [] [] true 3 false (1/100)
        initialPlayer).1.isOnRope = true)) ∧
    (¬((handleInput initialLevel [] [] false false noKeys
        initialPlayer).1.isTrapped = true ∧
      (handleInput initialLevel [] [] false false noKeys
        initialPlayer).1.isFalling = true) ∧
    ¬((handleInput initialLevel [] [] false false noKeys
        initialPlayer).1.isClimbing = true ∧
      (handleInput initialLevel [] [] false false noKeys
        initialPlayer).1.isOnRope = true)) :=
  ⟨flag_exclusions_spec.1 initialLevel [] [] true 3 false (1/100)
      initialPlayer (by decide) (by decide),
   flag_exclusions_spec.2 initialLevel [] [] false false noKeys
      initialPlayer (by decide) (by decide)⟩

/-- Boundary handling for an enemy never touches lives or game-over. -/
theorem boundaryStep_enemy_session (lives : Int) (gameOver : Bool)
    (e0 : Entity) :
    (boundaryStep false lives gameOver e0).2 = (lives, gameOver) := by
  unfold boundaryStep
  dsimp only
  repeat' split
  all_goals simp_all

/-- An enemy's physics step never touches lives or game-over. -/
theorem updatePhysics_enemy_session (lvl : Level) (holes : HoleMap)
    (others : List Entity) (lives : Int) (gameOver : Bool) (dt : ℚ)
    (e : Entity) :
    (updatePhysics lvl holes others false lives gameOver dt e).2 =
      (lives, gameOver) := by
  unfold updatePhysics
  split
  · rfl
  · dsimp only
    rw [boundaryStep_enemy_session]

/-- The player's boundary handling either leaves the session pair alone or
performs exactly one off-screen life decrement, entering game over iff the
decremented count is ≤ 0. -/
theorem boundaryStep_player_session (lives : Int) (gameOver : Bool)
    (e0 : Entity) :
    (boundaryStep true lives gameOver e0).2 = (lives, gameOver) ∨
    ((boundaryStep true lives gameOver e0).2.1 = lives - 1 ∧
     (boundaryStep true lives gameOver e0).2.2 =
       (gameOver || decide (lives - 1 ≤ 0))) := by
  unfold boundaryStep
  dsimp only
  repeat' split
  all_goals first
    | exact Or.inl rfl
    | (refine Or.inr ⟨rfl, ?_⟩; simp_all)
    | simp_all

/-- The player's physics step either leaves the session pair alone or
performs exactly one life decrement (the off-screen fall), entering game
over iff the decremented count is ≤ 0. -/
theorem updatePhysics_player_session (lvl : Level) (holes : HoleMap)
    (others : List Entity) (lives : Int) (gameOver : Bool) (dt : ℚ)
    (e : Entity) :
    (updatePhysics lvl holes others true lives gameOver dt e).2 =
      (lives, gameOver) ∨
    ((updatePhysics lvl holes others true lives gameOver dt e).2.1 =
      lives - 1 ∧
     (updatePhysics lvl holes others true lives gameOver dt e).2.2 =
       (gameOver || decide (lives - 1 ≤ 0))) := by
  unfold updatePhysics
  split
  · exact Or.inl rfl
  · dsimp only
    rcases boundaryStep_player_session lives gameOver
        (moveStep lvl holes others true dt e) with h | ⟨h1, h2⟩
    · rw [h]
      exact Or.inl rfl
    · rw [h1, h2]
      exact Or.inr ⟨rfl, rfl⟩

/-- One enemy index of the enemy loop either leaves the session pair alone
or — on enemy/player contact with the game neither over nor won — performs
exactly one life decrement, entering game over iff the decremented count
is ≤ 0. -/
theorem updateEnemiesStep_session (lvl : Level) (holes : HoleMap)
    (gameWon : Bool) (dt : ℚ) (r : Bool) (i : Nat) (player : Entity)
    (es : List Entity) (lives : Int) (gameOver : Bool) :
    (updateEnemiesStep lvl holes gameWon dt r i player es lives
      gameOver).2.2 = (lives, gameOver) ∨
    (gameOver = false ∧ gameWon = false ∧
     (updateEnemiesStep lvl holes gameWon dt r i player es lives
       gameOver).2.2.1 = lives - 1 ∧
     (updateEnemiesStep lvl holes gameWon dt r i player es lives
       gameOver).2.2.2 = decide (lives - 1 ≤ 0)) := by
  unfold updateEnemiesStep
  split
  · exact Or.inl rfl
  · rename_i en hen
    split
    · exact Or.inl rfl
    · split
      · dsimp only
        rw [updatePhysics_enemy_session]
        exact Or.inl rfl
      · dsimp only
        rw [updatePhysics_enemy_session]
        dsimp only
        split
        · split
          · rename_i hcol hsess
            have hgo : gameOver = false := by
              simp only [Bool.and_eq_true, Bool.not_eq_true'] at hsess
              exact hsess.1
            have hgw : gameWon = false := by
              simp only [Bool.and_eq_true, Bool.not_eq_true'] at hsess
              exact hsess.2
            split
            · rename_i hle
              exact Or.inr ⟨hgo, hgw, rfl, by simp [hle]⟩
            · rename_i hle
              exact Or.inr ⟨hgo, hgw, rfl, by simp [hle, hgo]⟩
          · exact Or.inl rfl
        · exact Or.inl rfl

/-- The lives/game-over session invariant relative to the lives count `l0`
at tick entry: lives never rise, a live game keeps at least one life, and a
game over means the count has hit exactly zero. -/
def sessionInv (l0 : Int) (p : Int × Bool) : Prop :=
  p.1 ≤ l0 ∧ (p.2 = false → 1 ≤ p.1) ∧ (p.2 = true → p.1 = 0)

/-- One enemy index preserves the session invariant. -/
theorem updateEnemiesStep_inv (lvl : Level) (holes : HoleMap)
    (gameWon : Bool) (dt : ℚ) (r : Bool) (i : Nat) (player : Entity)
    (es : List Entity) (lives : Int) (gameOver : Bool) (l0 : Int)
    (h : sessionInv l0 (lives, gameOver)) :
    sessionInv l0 ((updateEnemiesStep lvl holes gameWon dt r i player es
      lives gameOver).2.2) := by
  rcases updateEnemiesStep_session lvl holes gameWon dt r i player es lives
      gameOver with heq | ⟨hgo, hgw, hl, hg⟩
  · rw [heq]
    exact h
  · have h1 : 1 ≤ lives := h.2.1 hgo
    refine ⟨?_, ?_, ?_⟩
    · rw [hl]
      have := h.1
      omega
    · intro hf
      rw [hg] at hf
      simp only [decide_eq_false_iff_not, not_le] at hf
      rw [hl]
      omega
    · intro ht
      rw [hg] at ht
      simp only [decide_eq_true_eq] at ht
      rw [hl]
      omega

/-- The whole enemy loop preserves the session invariant. -/
theorem foldl_sessionInv (lvl : Level) (holes : HoleMap) (gameWon : Bool)
    (rnd : Nat → Bool) (dt : ℚ) (l0 : Int) (l : List Nat) :
    ∀ (acc : Entity × List Entity × Int × Bool), sessionInv l0 acc.2.2 →
    sessionInv l0 ((l.foldl
      (fun st i => updateEnemiesStep lvl holes gameWon dt (rnd i) i st.1
        st.2.1 st.2.2.1 st.2.2.2) acc).2.2) := by
  induction l with
  | nil => exact fun acc h => h
  | cons i rest ih =>
    intro acc h
    simp only [List.foldl_cons]
    exact ih _ (updateEnemiesStep_inv lvl holes gameWon dt (rnd i) i acc.1
      acc.2.1 acc.2.2.1 acc.2.2.2 l0 h)

/-- The player update establishes the session invariant from a live game. -/
theorem updatePlayerS_inv (dt : ℚ) (st : GameState)
    (hgo : st.gameOver = false) (hl : 1 ≤ st.lives) :
    sessionInv st.lives
      ((updatePlayerS dt st).lives, (updatePlayerS dt st).gameOver) := by
  unfold updatePlayerS
  split
  · refine ⟨le_refl _, fun _ => hl, fun ht => ?_⟩
    rw [hgo] at ht
    exact Bool.noConfusion ht
  · dsimp only
    rcases updatePhysics_player_session st.level st.dugHoles st.enemies
        st.lives st.gameOver dt st.player with heq | ⟨h1, h2⟩
    · have hA : (updatePhysics st.level st.dugHoles st.enemies true st.lives
          st.gameOver dt st.player).2.1 = st.lives := by rw [heq]
      have hB : (updatePhysics st.level st.dugHoles st.enemies true st.lives
          st.gameOver dt st.player).2.2 = st.gameOver := by rw [heq]
      refine ⟨?_, fun _ => ?_, fun ht => ?_⟩
      · rw [hA]
      · rw [hA]
        exact hl
      · rw [hB, hgo] at ht
        exact Bool.noConfusion ht
    · refine ⟨?_, fun hf => ?_, fun ht => ?_⟩
      · dsimp only
        rw [h1]
        omega
      · dsimp only at hf ⊢
        rw [h2, hgo] at hf
        simp only [Bool.false_or, decide_eq_false_iff_not, not_le] at hf
        rw [h1]
        omega
      · dsimp only at ht ⊢
        rw [h2, hgo] at ht
        simp only [Bool.false_or, decide_eq_true_eq] at ht
        rw [h1]
        omega

/-- The enemy loop acting on the state aggregate preserves the session
invariant. -/
theorem updateEnemiesS_inv (rnd : Nat → Bool) (dt : ℚ) (st : GameState)
    (l0 : Int) (h : sessionInv l0 (st.lives, st.gameOver)) :
    sessionInv l0
      ((updateEnemiesS rnd dt st).lives,
        (updateEnemiesS rnd dt st).gameOver) := by
  unfold updateEnemiesS updateEnemies
  dsimp only
  exact foldl_sessionInv st.level st.dugHoles st.gameWon rnd dt l0
    (List.range st.enemies.length) (st.player, st.enemies, st.lives,
      st.gameOver) h

/-- Hole decay never touches lives, game-over or game-won. -/
theorem updateDiggingS_session (dt : ℚ) (st : GameState) :
    (updateDiggingS dt st).lives = st.lives ∧
    (updateDiggingS dt st).gameOver = st.gameOver := ⟨rfl, rfl⟩

/-- The win-condition check never touches lives or game-over. -/
theorem checkLevelCompletionS_session (st : GameState) :
    (checkLevelCompletionS st).lives = st.lives ∧
    (checkLevelCompletionS st).gameOver = st.gameOver := by
  unfold checkLevelCompletionS
  split
  · exact ⟨rfl, rfl⟩
  · exact ⟨rfl, rfl⟩

/-- A finished game: the fresh state with the game-over flag raised. -/
def gameOverState : GameState :=
  { initialState (fun _ => true) with gameOver := true }

/-- C8: lives decrease only on the player's off-screen fall (in the player
physics step) or on enemy contact while the game is neither over nor won
(in the enemy loop); each such event decrements by exactly one and raises
game over iff the count reaches ≤ 0; enemy physics never touches the
session pair; game over is terminal (the tick returns the state
unchanged); and across a tick from a live state with ≥ 1 lives, lives
never rise, a still-live game retains ≥ 1 lives, and a game over means the
count is exactly 0. -/
theorem lives_terminal_spec :
    (∀ (rnd : Nat → Bool) (dtRaw : ℚ) (st : GameState),
      st.gameOver = true → updateTick rnd dtRaw st = st) ∧
    (∀ (lvl : Level) (holes : HoleMap) (others : List Entity) (lives : Int)
      (gameOver : Bool) (dt : ℚ) (e : Entity),
      (updatePhysics lvl holes others false lives gameOver dt e).2 =
        (lives, gameOver)) ∧
    (∀ (lvl : Level) (holes : HoleMap) (others : List Entity) (lives : Int)
      (gameOver : Bool) (dt : ℚ) (e : Entity),
      (updatePhysics lvl holes others true lives gameOver dt e).2 =
        (lives, gameOver) ∨
      ((updatePhysics lvl holes others true lives gameOver dt e).2.1 =
        lives - 1 ∧
       (updatePhysics lvl holes others true lives gameOver dt e).2.2 =
         (gameOver || decide (lives - 1 ≤ 0)))) ∧
    (∀ (lvl : Level) (holes : HoleMap) (gameWon : Bool) (dt : ℚ) (r : Bool)
      (i : Nat) (player : Entity) (es : List Entity) (lives : Int)
      (gameOver : Bool),
      (updateEnemiesStep lvl holes gameWon dt r i player es lives
        gameOver).2.2 = (lives, gameOver) ∨
      (gameOver = false ∧ gameWon = false ∧
       (updateEnemiesStep lvl holes gameWon dt r i player es lives
         gameOver).2.2.1 = lives - 1 ∧
       (updateEnemiesStep lvl holes gameWon dt r i player es lives
         gameOver).2.2.2 = decide (lives - 1 ≤ 0))) ∧
    (∀ (rnd : Nat → Bool) (dtRaw : ℚ) (st : GameState),
      st.gameOver = false → st.gameWon = false → 1 ≤ st.lives →
      (updateTick rnd dtRaw st).lives ≤ st.lives ∧
      ((updateTick rnd dtRaw st).gameOver = false →
        1 ≤ (updateTick rnd dtRaw st).lives) ∧
      ((updateTick rnd dtRaw st).gameOver = true →
        (updateTick rnd dtRaw st).lives = 0)) := by
  refine ⟨?_, updatePhysics_enemy_session, updatePhysics_player_session,
    updateEnemiesStep_session, ?_⟩
  · intro rnd dtRaw st h
    simp [updateTick, h]
  · intro rnd dtRaw st hgo hgw hl
    unfold updateTick
    dsimp only
    rw [if_pos (by simp [hgo, hgw])]
    have h1g : (handleInputS st).gameOver = st.gameOver := rfl
    have h1l : (handleInputS st).lives = st.lives := rfl
    have h2 := updatePlayerS_inv (if dtRaw > 1/10 then 1/10 else dtRaw)
      (handleInputS st) (by rw [h1g]; exact hgo) (by rw [h1l]; exact hl)
    rw [h1l] at h2
    have h3 := updateEnemiesS_inv rnd (if dtRaw > 1/10 then 1/10 else dtRaw)
      (updatePlayerS (if dtRaw > 1/10 then 1/10 else dtRaw)
        (handleInputS st)) st.lives h2
    have hd := updateDiggingS_session
      (if dtRaw > 1/10 then 1/10 else dtRaw)
      (updateEnemiesS rnd (if dtRaw > 1/10 then 1/10 else dtRaw)
        (updatePlayerS (if dtRaw > 1/10 then 1/10 else dtRaw)
          (handleInputS st)))
    have hc := checkLevelCompletionS_session
      (updateDiggingS (if dtRaw > 1/10 then 1/10 else dtRaw)
        (updateEnemiesS rnd (if dtRaw > 1/10 then 1/10 else dtRaw)
          (updatePlayerS (if dtRaw > 1/10 then 1/10 else dtRaw)
            (handleInputS st))))
    rw [hc.1, hc.2, hd.1, hd.2]
    exact ⟨h3.1, h3.2.1, h3.2.2⟩

/-- Witness for the C8 theorem at concrete inputs: a raised game-over flag
freezes the fresh state, and one tick from the fresh state keeps the
game-over/zero-lives link. -/
theorem lives_terminal_spec_witness :
    updateTick (fun _ => true) (1/100) gameOverState = gameOverState ∧
    ((updateTick (fun _ => true) (1/100)
        (initialState (fun _ => true))).gameOver = true →
      (updateTick (fun _ => true) (1/100)
        (initialState (fun _ => true))).lives = 0) :=
  ⟨lives_terminal_spec.1 (fun _ => true) (1/100) gameOverState rfl,
   (lives_terminal_spec.2.2.2.2 (fun _ => true) (1/100)
      (initialState (fun _ => true)) rfl rfl (by decide)).2.2⟩

end LodeRunner
